import Mathlib

/-!
Verification of the Verisca agronomic calculation engine
(`backend/app/services/{calculations,spatial,validation,orchestrator}.py`)
against its natural-language specification.

Numeric values are modelled as exact rationals (`ℚ`).  Python's `round`
(banker's rounding, half to even) is modelled by `roundHalfEven`; Python's
`/`, which raises `ZeroDivisionError` on a zero divisor, is modelled by
`pydiv` in the `Except` monad.  The SQL-backed lookup store is modelled as
a list of rows mirroring the `lookup_tables` schema.
-/

namespace Verisca

/-- Python `round` to an integer: round half to even (banker's rounding). -/
def roundHalfEven (q : ℚ) : ℤ :=
  let f : ℤ := ⌊q⌋
  let r : ℚ := q - f
  if r < 1/2 then f
  else if 1/2 < r then f + 1
  else if f % 2 = 0 then f else f + 1

/-- Python `round(q, n)`: round to `n` decimal digits, half to even. -/
def roundTo (n : ℕ) (q : ℚ) : ℚ :=
  (roundHalfEven (q * 10 ^ n) : ℚ) / 10 ^ n

/-- Errors surfaced by the calculation engine: Python's `ZeroDivisionError`
and SQLAlchemy's `MultipleResultsFound` (the latter is *not* a `ValueError`,
so calculators do not catch it). -/
inductive CalcError where
  | zeroDivision
  | multipleResults
  deriving Repr, DecidableEq

/-- Python division `a / b`: raises `ZeroDivisionError` when `b = 0`. -/
def pydiv (a b : ℚ) : Except CalcError ℚ :=
  if b = 0 then .error .zeroDivision else .ok (a / b)

theorem ok_bind {ε α β : Type} (a : α) (f : α → Except ε β) :
    (Except.ok a : Except ε α) >>= f = f a := rfl

theorem error_bind {ε α β : Type} (e : ε) (f : α → Except ε β) :
    (Except.error e : Except ε α) >>= f = Except.error e := rfl

/-- One row of the `lookup_tables` table
(`backend/app/models/lookup.py`): primary key `id`, `table_name`,
`input_value`, nullable `stage_or_condition`, `output_value`. -/
structure LookupEntry where
  id : ℕ
  table_name : String
  input_value : ℚ
  stage_or_condition : Option String
  output_value : ℚ
  deriving Repr, DecidableEq

/-- The lookup store: the rows of `lookup_tables`. -/
abbrev LookupStore := List LookupEntry

/-- The `stage_or_condition` filter applied by `get_lookup_value`'s queries:
Python adds `where(stage_or_condition == c)` only `if stage_column:` is
truthy (non-`None` and non-empty). -/
def condMatch (cond : Option String) (e : LookupEntry) : Bool :=
  match cond with
  | none => true
  | some c => if c = "" then true else e.stage_or_condition == some c

/-- The rows of `store` visible to a `get_lookup_value` query on
`(table_name, stage_column)`. -/
def seriesFilter (store : LookupStore) (t : String) (cond : Option String) :
    List LookupEntry :=
  store.filter (fun e => e.table_name == t && condMatch cond e)

/-- Rows matching the exact-match query of `get_lookup_value`. -/
def exactMatches (store : LookupStore) (t : String) (x : ℚ)
    (cond : Option String) : List LookupEntry :=
  (seriesFilter store t cond).filter (fun e => decide (e.input_value = x))

/-- The row returned by the lower-bound query
(`input_value <= x`, `ORDER BY input_value DESC LIMIT 1`). -/
def lowerBoundEntry (x : ℚ) : List LookupEntry → Option LookupEntry
  | [] => none
  | e :: es =>
    let r := lowerBoundEntry x es
    if e.input_value ≤ x then
      match r with
      | none => some e
      | some b => if b.input_value < e.input_value then some e else some b
    else r

/-- The row returned by the upper-bound query
(`input_value >= x`, `ORDER BY input_value ASC LIMIT 1`). -/
def upperBoundEntry (x : ℚ) : List LookupEntry → Option LookupEntry
  | [] => none
  | e :: es =>
    let r := upperBoundEntry x es
    if x ≤ e.input_value then
      match r with
      | none => some e
      | some b => if e.input_value < b.input_value then some e else some b
    else r

/-- `CalculationService.get_lookup_value`
(`backend/app/services/calculations.py:14-76`): exact match first, then
linear interpolation between the closest `≤` and `≥` rows, rounded to two
decimals; `ValueError` (modelled `.error .outOfRange` — here represented by
the calculator-level `Except String`) when a bound is missing. -/
inductive LookupError where
  | outOfRange
  | multipleResults
  deriving Repr, DecidableEq

def get_lookup_value (store : LookupStore) (table_name : String)
    (input_value : ℚ) (stage_column : Option String) :
    Except LookupError ℚ :=
  match exactMatches store table_name input_value stage_column with
  | [e] => .ok e.output_value
  | _ :: _ :: _ => .error .multipleResults
  | [] =>
    match lowerBoundEntry input_value (seriesFilter store table_name stage_column),
          upperBoundEntry input_value (seriesFilter store table_name stage_column) with
    | some lb, some ub =>
      if lb.id = ub.id then .ok lb.output_value
      else if ub.input_value = lb.input_value then .ok lb.output_value
      else .ok (roundTo 2 (lb.output_value +
        (input_value - lb.input_value) * (ub.output_value - lb.output_value) /
          (ub.input_value - lb.input_value)))
    | _, _ => .error .outOfRange

/-- Well-formedness of the `(table_name, condition)` series seen by a query:
distinct `input_value`s and distinct row ids (the data-model invariant of
the spec, enforced by the `unique_lookup_cell` constraint and the uuid
primary key). -/
def WFSeries (store : LookupStore) (t : String) (cond : Option String) : Prop :=
  (seriesFilter store t cond).Pairwise (fun a b => a.input_value ≠ b.input_value) ∧
  (seriesFilter store t cond).Pairwise (fun a b => a.id ≠ b.id)

instance (store : LookupStore) (t : String) (cond : Option String) :
    Decidable (WFSeries store t cond) := by
  unfold WFSeries; infer_instance

theorem filter_eq_single_of_pairwise {l : List LookupEntry} {x : ℚ}
    (hp : l.Pairwise (fun a b => a.input_value ≠ b.input_value))
    {e : LookupEntry} (he : e ∈ l) (hx : e.input_value = x) :
    l.filter (fun a => decide (a.input_value = x)) = [e] := by
  induction l with
  | nil => cases he
  | cons a l ih =>
    rcases List.pairwise_cons.mp hp with ⟨ha, hl⟩
    rcases List.mem_cons.mp he with rfl | he'
    · have hnil : List.filter (fun a => decide (a.input_value = x)) l = [] := by
        rw [List.filter_eq_nil_iff]
        intro b hb
        simp only [decide_eq_true_eq]
        intro hbx
        exact ha b hb (hx.trans hbx.symm)
      simp [List.filter_cons, hx, hnil]
    · have hax : ¬ (a.input_value = x) := fun h => ha e he' (h.trans hx.symm)
      simp only [List.filter_cons, hax, decide_False]
      exact ih hl he'

theorem lowerBoundEntry_mem {x : ℚ} {l : List LookupEntry} {b : LookupEntry}
    (h : lowerBoundEntry x l = some b) : b ∈ l ∧ b.input_value ≤ x := by
  induction l with
  | nil => simp [lowerBoundEntry] at h
  | cons a l ih =>
    simp only [lowerBoundEntry] at h
    by_cases hle : a.input_value ≤ x
    · simp only [hle, if_pos] at h
      rcases hr : lowerBoundEntry x l with _ | c
      · rw [hr] at h; cases h
        exact ⟨List.mem_cons_self _ _, hle⟩
      · rw [hr] at h
        by_cases hlt : c.input_value < a.input_value
        · simp only [hlt, if_pos] at h; cases h
          exact ⟨List.mem_cons_self _ _, hle⟩
        · simp only [hlt, if_neg, not_false_iff] at h; cases h
          rcases ih hr with ⟨hm, hx⟩
          exact ⟨List.mem_cons_of_mem _ hm, hx⟩
    · simp only [hle, if_neg, not_false_iff] at h
      rcases ih h with ⟨hm, hx⟩
      exact ⟨List.mem_cons_of_mem _ hm, hx⟩

theorem lowerBoundEntry_eq_none_forall {x : ℚ} {l : List LookupEntry}
    (h : lowerBoundEntry x l = none) : ∀ e ∈ l, ¬ e.input_value ≤ x := by
  induction l with
  | nil => intro e he; cases he
  | cons a l ih =>
    intro e he
    simp only [lowerBoundEntry] at h
    by_cases hle : a.input_value ≤ x
    · simp only [hle, if_pos] at h
      rcases hr : lowerBoundEntry x l with _ | c <;> rw [hr] at h
      · cases h
      · by_cases hlt : c.input_value < a.input_value <;> simp [hlt] at h
    · simp only [hle, if_neg, not_false_iff] at h
      rcases List.mem_cons.mp he with rfl | he'
      · exact hle
      · exact ih h e he'

theorem lowerBoundEntry_maximal {x : ℚ} {l : List LookupEntry} :
    ∀ {b : LookupEntry}, lowerBoundEntry x l = some b →
    ∀ e ∈ l, e.input_value ≤ x → e.input_value ≤ b.input_value := by
  induction l with
  | nil => intro b h; simp [lowerBoundEntry] at h
  | cons a l ih =>
    intro b h e he hex
    simp only [lowerBoundEntry] at h
    by_cases hle : a.input_value ≤ x
    · simp only [hle, if_pos] at h
      rcases hr : lowerBoundEntry x l with _ | c <;> rw [hr] at h
      · cases h
        rcases List.mem_cons.mp he with rfl | he'
        · exact le_refl _
        · exact absurd hex (lowerBoundEntry_eq_none_forall hr e he')
      · by_cases hlt : c.input_value < a.input_value
        · simp only [hlt, if_pos] at h; cases h
          rcases List.mem_cons.mp he with rfl | he'
          · exact le_refl _
          · exact le_trans (ih hr e he' hex) (le_of_lt hlt)
        · simp only [hlt, if_neg, not_false_iff] at h; cases h
          rcases List.mem_cons.mp he with rfl | he'
          · exact le_of_not_lt hlt
          · exact ih hr e he' hex
    · simp only [hle, if_neg, not_false_iff] at h
      rcases List.mem_cons.mp he with rfl | he'
      · exact absurd hex hle
      · exact ih h e he' hex
theorem upperBoundEntry_mem {x : ℚ} {l : List LookupEntry} {b : LookupEntry}
    (h : upperBoundEntry x l = some b) : b ∈ l ∧ x ≤ b.input_value := by
  induction l with
  | nil => simp [upperBoundEntry] at h
  | cons a l ih =>
    simp only [upperBoundEntry] at h
    by_cases hle : x ≤ a.input_value
    · simp only [hle, if_pos] at h
      rcases hr : upperBoundEntry x l with _ | c <;> rw [hr] at h
      · cases h
        exact ⟨List.mem_cons_self _ _, hle⟩
      · by_cases hlt : a.input_value < c.input_value
        · simp only [hlt, if_pos] at h; cases h
          exact ⟨List.mem_cons_self _ _, hle⟩
        · simp only [hlt, if_neg, not_false_iff] at h; cases h
          rcases ih hr with ⟨hm, hx⟩
          exact ⟨List.mem_cons_of_mem _ hm, hx⟩
    · simp only [hle, if_neg, not_false_iff] at h
      rcases ih h with ⟨hm, hx⟩
      exact ⟨List.mem_cons_of_mem _ hm, hx⟩

theorem upperBoundEntry_eq_none_forall {x : ℚ} {l : List LookupEntry}
    (h : upperBoundEntry x l = none) : ∀ e ∈ l, ¬ x ≤ e.input_value := by
  induction l with
  | nil => intro e he; cases he
  | cons a l ih =>
    intro e he
    simp only [upperBoundEntry] at h
    by_cases hle : x ≤ a.input_value
    · simp only [hle, if_pos] at h
      rcases hr : upperBoundEntry x l with _ | c <;> rw [hr] at h
      · cases h
      · by_cases hlt : a.input_value < c.input_value <;> simp [hlt] at h
    · simp only [hle, if_neg, not_false_iff] at h
      rcases List.mem_cons.mp he with rfl | he'
      · exact hle
      · exact ih h e he'

/-- If the series has pairwise-distinct input values, every exact-match
query returns at most one row, so the resolver never raises
`MultipleResultsFound`. -/
theorem exactMatches_sublist (store : LookupStore) (t : String) (x : ℚ)
    (cond : Option String) :
    (exactMatches store t x cond).Sublist (seriesFilter store t cond) :=
  List.filter_sublist _

theorem get_lookup_value_ne_multiple {store : LookupStore} {t : String}
    {x : ℚ} {cond : Option String}
    (hWF : (seriesFilter store t cond).Pairwise
      (fun a b => a.input_value ≠ b.input_value)) :
    get_lookup_value store t x cond ≠ .error .multipleResults := by
  have hpair : (exactMatches store t x cond).Pairwise
      (fun a b => a.input_value ≠ b.input_value) :=
    List.Pairwise.sublist (exactMatches_sublist store t x cond) hWF
  unfold get_lookup_value
  rcases hm : exactMatches store t x cond with _ | ⟨e, _ | ⟨f, r⟩⟩
  · rcases hl : lowerBoundEntry x (seriesFilter store t cond) with _ | lb <;>
      rcases hu : upperBoundEntry x (seriesFilter store t cond) with _ | ub <;>
      simp only [] <;> try simp
    split <;> [simp; (split <;> simp)]
  · simp
  · exfalso
    rw [hm] at hpair
    have he : e.input_value = x := by
      have := List.mem_filter.mp (hm ▸ List.mem_cons_self e (f :: r) :
        e ∈ exactMatches store t x cond)
      simpa using this.2
    have hf : f.input_value = x := by
      have := List.mem_filter.mp
        (hm ▸ List.mem_cons_of_mem e (List.mem_cons_self f r) :
          f ∈ exactMatches store t x cond)
      simpa using this.2
    exact (List.pairwise_cons.mp hpair).1 f (List.mem_cons_self f r)
      (he.trans hf.symm)


/-- C1. The interpolation resolver: exact match returns the stored value
with no rounding; with both bounds present and distinct it returns the
2-decimal-rounded linear interpolation; coinciding bounds return that
entry's value; a missing bound (input below the series minimum or above
its maximum) raises the out-of-range error. -/
theorem C1_interpolation_resolver (store : LookupStore) (t : String)
    (cond : Option String) (x : ℚ) (hWF : WFSeries store t cond) :
    (∀ e ∈ seriesFilter store t cond, e.input_value = x →
      get_lookup_value store t x cond = .ok e.output_value) ∧
    (∀ b, lowerBoundEntry x (seriesFilter store t cond) = some b →
      upperBoundEntry x (seriesFilter store t cond) = some b →
      get_lookup_value store t x cond = .ok b.output_value) ∧
    (∀ lb ub, (∀ e ∈ seriesFilter store t cond, e.input_value ≠ x) →
      lowerBoundEntry x (seriesFilter store t cond) = some lb →
      upperBoundEntry x (seriesFilter store t cond) = some ub →
      get_lookup_value store t x cond = .ok (roundTo 2 (lb.output_value +
        (x - lb.input_value) * (ub.output_value - lb.output_value) /
          (ub.input_value - lb.input_value)))) ∧
    ((∀ e ∈ seriesFilter store t cond, x < e.input_value) →
      get_lookup_value store t x cond = .error .outOfRange) ∧
    ((∀ e ∈ seriesFilter store t cond, e.input_value < x) →
      get_lookup_value store t x cond = .error .outOfRange) := by
  obtain ⟨hvals, hids⟩ := hWF
  refine ⟨?_, ?_, ?_, ?_, ?_⟩
  · -- exact-match path
    intro e he hex
    have hm : exactMatches store t x cond = [e] :=
      filter_eq_single_of_pairwise hvals he hex
    unfold get_lookup_value
    simp only [hm]
  · -- coinciding bounds: the row's input equals x, so the exact path fires
    intro b hlb hub
    have h1 := lowerBoundEntry_mem hlb
    have h2 := upperBoundEntry_mem hub
    have hbx : b.input_value = x := le_antisymm h1.2 h2.2
    have hm : exactMatches store t x cond = [b] :=
      filter_eq_single_of_pairwise hvals h1.1 hbx
    unfold get_lookup_value
    simp only [hm]
  · -- interpolation path
    intro lb ub hnone hlb hub
    have hm : exactMatches store t x cond = [] := by
      rw [exactMatches, List.filter_eq_nil_iff]
      intro e he
      simpa using hnone e he
    have hlbm := lowerBoundEntry_mem hlb
    have hubm := upperBoundEntry_mem hub
    have hlbx : lb.input_value < x :=
      lt_of_le_of_ne hlbm.2 (hnone lb hlbm.1)
    have hubx : x < ub.input_value :=
      lt_of_le_of_ne hubm.2 (fun h => hnone ub hubm.1 h.symm)
    have hne : lb ≠ ub := by
      intro h; rw [h] at hlbx; exact absurd (hlbx.trans hubx) (lt_irrefl _)
    have hid : lb.id ≠ ub.id := by
      have hsymm : Symmetric (fun a b : LookupEntry => a.id ≠ b.id) :=
        fun a b h => h.symm
      exact hids.forall hsymm hlbm.1 hubm.1 hne
    have hxne : ub.input_value ≠ lb.input_value := by
      intro h
      exact absurd (h ▸ hubx) (lt_asymm hlbx)
    unfold get_lookup_value
    simp only [hm, hlb, hub]
    rw [if_neg hid, if_neg hxne]
  · -- below the series minimum: no lower bound
    intro hbelow
    have hm : exactMatches store t x cond = [] := by
      rw [exactMatches, List.filter_eq_nil_iff]
      intro e he
      simp only [decide_eq_true_eq]
      exact fun h => absurd (h ▸ hbelow e he) (lt_irrefl _)
    have hlb : lowerBoundEntry x (seriesFilter store t cond) = none := by
      rcases hr : lowerBoundEntry x (seriesFilter store t cond) with _ | b
      · rfl
      · have := lowerBoundEntry_mem hr
        exact absurd this.2 (not_le.mpr (hbelow b this.1))
    unfold get_lookup_value
    simp only [hm, hlb]
  · -- above the series maximum: no upper bound
    intro habove
    have hm : exactMatches store t x cond = [] := by
      rw [exactMatches, List.filter_eq_nil_iff]
      intro e he
      simp only [decide_eq_true_eq]
      exact fun h => absurd (h ▸ habove e he) (lt_irrefl _)
    have hub : upperBoundEntry x (seriesFilter store t cond) = none := by
      rcases hr : upperBoundEntry x (seriesFilter store t cond) with _ | b
      · rfl
      · have := upperBoundEntry_mem hr
        exact absurd this.2 (not_le.mpr (habove b this.1))
    unfold get_lookup_value
    simp only [hm, hub]
    rcases hl : lowerBoundEntry x (seriesFilter store t cond) with _ | lb <;>
      simp only [hl]

/-- A concrete store holding the seeded Exhibit 13 series for stage
`7thLeaf` (`seed_exhibit_13`): 10% → 3%, 50% → 48%, 100% → 100%. -/
def exhibit13demo : LookupStore :=
  [⟨1, "exhibit13_hailStandReduction", 10, some "7thLeaf", 3⟩,
   ⟨2, "exhibit13_hailStandReduction", 50, some "7thLeaf", 48⟩,
   ⟨3, "exhibit13_hailStandReduction", 100, some "7thLeaf", 100⟩]

theorem exhibit13demo_wf :
    WFSeries exhibit13demo "exhibit13_hailStandReduction" (some "7thLeaf") := by
  constructor <;>
    norm_num [exhibit13demo, seriesFilter, condMatch, List.filter,
      List.pairwise_cons, LookupEntry.mk.injEq]

/-- Witness for C1: the exact-match path on the seeded Exhibit 13 store. -/
theorem C1_interpolation_resolver_witness :
    get_lookup_value exhibit13demo "exhibit13_hailStandReduction" 10
      (some "7thLeaf") = .ok 3 :=
  (C1_interpolation_resolver exhibit13demo "exhibit13_hailStandReduction"
      (some "7thLeaf") 10 exhibit13demo_wf).1
    ⟨1, "exhibit13_hailStandReduction", 10, some "7thLeaf", 3⟩
    (by norm_num [exhibit13demo, seriesFilter, condMatch, List.filter]) rfl

/-! ## Stand reduction (`CalculationService.calculate_stand_reduction`) -/

/-- A stand-reduction sample dict: `sample.get(key, default)` is modelled
with `Option` fields read through `getD`. -/
structure StandSample where
  sample_number : Option ℤ
  length_measured_m : Option ℚ
  row_width_m : Option ℚ
  surviving_plants : Option ℤ
  deriving Repr, DecidableEq

/-- One entry of the stand-reduction `sample_details` list. -/
structure StandSampleDetail where
  sample_number : Option ℤ
  surviving_plants : ℤ
  current_population_ha : ℤ
  percent_stand : ℚ
  percent_potential_yield : ℚ
  deriving Repr, DecidableEq

/-- The dict returned by `calculate_stand_reduction`. -/
structure StandReductionResult where
  method : String
  growth_stage : String
  table_used : String
  normal_population : ℤ
  average_potential_yield_pct : ℚ
  loss_percentage : ℚ
  sample_details : List StandSampleDetail
  deriving Repr, DecidableEq

def standLateStages : List String :=
  ["11thLeaf", "12thLeaf", "13thLeaf", "14thLeaf", "15thLeaf", "16thLeaf",
   "tasseled"]

def standMatureStages : List String :=
  ["silked", "blister", "milk", "dough", "dent", "mature"]

def standTableName (growth_stage : String) : String :=
  if growth_stage ∈ standLateStages then "exhibit12_standReduction"
  else "exhibit11_standReduction"

/-- `try: get_lookup_value(...) except ValueError: fallback` — only the
resolver's `ValueError` (out of range) is caught; SQLAlchemy's
`MultipleResultsFound` propagates. -/
def lookupValueOr (store : LookupStore) (t : String) (x : ℚ)
    (cond : Option String) (fallback : ℚ) : Except CalcError ℚ :=
  match get_lookup_value store t x cond with
  | .ok v => .ok v
  | .error .outOfRange => .ok fallback
  | .error .multipleResults => .error .multipleResults

/-- The body of `calculate_stand_reduction`'s per-sample loop
(`calculations.py:112-150`), returning the processed detail record and the
unrounded potential-yield percentage added to the accumulator. -/
def standSampleStep (store : LookupStore) (growth_stage : String) (npop : ℤ)
    (s : StandSample) : Except CalcError (StandSampleDetail × ℚ) := do
  let row_len := s.length_measured_m.getD 10
  let row_width := s.row_width_m.getD (9/10)
  let surviving := s.surviving_plants.getD 0
  let sample_area_m2 := row_len * row_width
  let q ← pydiv (surviving : ℚ) sample_area_m2
  let current_pop_per_ha := q * 10000
  let ps ← pydiv current_pop_per_ha (npop : ℚ)
  let percent_stand := min 100 (max 0 (ps * 100))
  let percent_potential ←
    if growth_stage ∈ standMatureStages then pure percent_stand
    else
      lookupValueOr store (standTableName growth_stage) percent_stand
        (some growth_stage) percent_stand
  pure (⟨s.sample_number, surviving, roundHalfEven current_pop_per_ha,
    roundTo 1 percent_stand, roundTo 1 percent_potential⟩, percent_potential)

/-- `CalculationService.calculate_stand_reduction`
(`calculations.py:78-164`). -/
def calculate_stand_reduction (store : LookupStore)
    (samples : List StandSample) (growth_stage : String)
    (npop : ℤ := 40000) : Except CalcError StandReductionResult := do
  let pairs ← samples.mapM (standSampleStep store growth_stage npop)
  let total := (pairs.map Prod.snd).sum
  let avg := if samples = [] then 0 else total / (samples.length : ℚ)
  let loss := 100 - avg
  pure { method := "stand_reduction"
         growth_stage := growth_stage
         table_used := if growth_stage ∈ standMatureStages then
             "direct_maturity" else standTableName growth_stage
         normal_population := npop
         average_potential_yield_pct := roundTo 2 avg
         loss_percentage := roundTo 2 loss
         sample_details := pairs.map Prod.fst }

/-! Claim-side formulas for C2, written from the specification's words. -/

/-- Spec: plant population density = (surviving / (row_length × row_width))
× 10000. -/
def standDensity (s : StandSample) : ℚ :=
  ((s.surviving_plants.getD 0 : ℚ) /
    (s.length_measured_m.getD 10 * s.row_width_m.getD (9/10))) * 10000

/-- Spec: percent-of-normal stand = density / normal_population × 100,
clamped to [0, 100]. -/
def standPercent (npop : ℤ) (s : StandSample) : ℚ :=
  min 100 (max 0 (standDensity s / (npop : ℚ) * 100))

/-- Spec: potential yield % is the resolver lookup of the stand percentage
for pre-mature stages (falling back to the stand percentage on resolver
failure), and the stand percentage itself for mature stages. -/
def standPotential (store : LookupStore) (growth_stage : String) (npop : ℤ)
    (s : StandSample) : ℚ :=
  if growth_stage ∈ standMatureStages then standPercent npop s
  else
    match get_lookup_value store (standTableName growth_stage)
        (standPercent npop s) (some growth_stage) with
    | .ok v => v
    | .error _ => standPercent npop s

theorem standSampleStep_ok (store : LookupStore) (growth_stage : String)
    (npop : ℤ) (s : StandSample)
    (harea : s.length_measured_m.getD 10 * s.row_width_m.getD (9/10) ≠ 0)
    (hnpop : (npop : ℚ) ≠ 0)
    (hWF : (seriesFilter store (standTableName growth_stage)
      (some growth_stage)).Pairwise
        (fun a b => a.input_value ≠ b.input_value)) :
    standSampleStep store growth_stage npop s =
      .ok (⟨s.sample_number, s.surviving_plants.getD 0,
            roundHalfEven (standDensity s),
            roundTo 1 (standPercent npop s),
            roundTo 1 (standPotential store growth_stage npop s)⟩,
           standPotential store growth_stage npop s) := by
  have hdiv1 : pydiv (s.surviving_plants.getD 0 : ℚ)
      (s.length_measured_m.getD 10 * s.row_width_m.getD (9/10)) =
      .ok ((s.surviving_plants.getD 0 : ℚ) /
        (s.length_measured_m.getD 10 * s.row_width_m.getD (9/10))) := by
    rw [pydiv, if_neg harea]
  have hdiv2 : pydiv ((s.surviving_plants.getD 0 : ℚ) /
      (s.length_measured_m.getD 10 * s.row_width_m.getD (9/10)) * 10000)
      (npop : ℚ) = .ok (standDensity s / (npop : ℚ)) := by
    rw [pydiv, if_neg hnpop, standDensity]
  simp only [standSampleStep]
  rw [hdiv1]
  simp only [ok_bind]
  rw [hdiv2]
  simp only [ok_bind]
  have hps : min 100 (max 0 (standDensity s / (npop : ℚ) * 100)) =
      standPercent npop s := rfl
  by_cases him : growth_stage ∈ standMatureStages
  · rw [if_pos him, standPotential, if_pos him]
    rfl
  · rw [if_neg him, standPotential, if_neg him]
    simp only [hps]
    rcases hr : get_lookup_value store (standTableName growth_stage)
        (standPercent npop s) (some growth_stage) with e | v
    · rcases e with _ | _
      · simp only [lookupValueOr, hr]
        rfl
      · exact absurd hr (get_lookup_value_ne_multiple hWF)
    · simp only [lookupValueOr, hr]
      rfl

theorem mapM_ok_of_forall {α β : Type} {f : α → Except CalcError β}
    {g : α → β} : ∀ (l : List α), (∀ a ∈ l, f a = .ok (g a)) →
    l.mapM f = .ok (l.map g) := by
  intro l
  induction l with
  | nil => intro _; rfl
  | cons a l ih =>
    intro h
    rw [List.mapM_cons, h a (List.mem_cons_self a l),
      ih (fun b hb => h b (List.mem_cons_of_mem a hb))]
    rfl

/-- C2. The stand-reduction calculator: per sample a population density of
(surviving / (row_length × row_width)) × 10000, a percent-of-normal stand
clamped to [0,100], potential yield % from the chart for pre-mature stages
(falling back to the stand percentage on resolver failure) and equal to the
stand percentage at mature stages, aggregate loss = 100 − mean potential;
and the concrete 40000-population / 10 m × 0.9 m / 36-plant mature-stage
sample yields stand 100 %, potential 100 %, loss 0 %. -/
theorem C2_stand_reduction_calculator (store : LookupStore)
    (samples : List StandSample) (growth_stage : String) (npop : ℤ)
    (hne : samples ≠ [])
    (harea : ∀ s ∈ samples,
      s.length_measured_m.getD 10 * s.row_width_m.getD (9/10) ≠ 0)
    (hnpop : (npop : ℚ) ≠ 0)
    (hWF : (seriesFilter store (standTableName growth_stage)
      (some growth_stage)).Pairwise
        (fun a b => a.input_value ≠ b.input_value)) :
    ∃ r, calculate_stand_reduction store samples growth_stage npop = .ok r ∧
      r.sample_details = samples.map (fun s =>
        ⟨s.sample_number, s.surviving_plants.getD 0,
         roundHalfEven (standDensity s), roundTo 1 (standPercent npop s),
         roundTo 1 (standPotential store growth_stage npop s)⟩) ∧
      r.average_potential_yield_pct = roundTo 2
        ((samples.map (standPotential store growth_stage npop)).sum /
          (samples.length : ℚ)) ∧
      r.loss_percentage = roundTo 2 (100 -
        (samples.map (standPotential store growth_stage npop)).sum /
          (samples.length : ℚ)) ∧
      calculate_stand_reduction store
        [⟨some 1, some 10, some (9/10), some 36⟩] "mature" 40000 =
        .ok ⟨"stand_reduction", "mature", "direct_maturity", 40000, 100, 0,
          [⟨some 1, 36, 40000, 100, 100⟩]⟩ := by
  have hstep : ∀ s ∈ samples, standSampleStep store growth_stage npop s =
      .ok (⟨s.sample_number, s.surviving_plants.getD 0,
            roundHalfEven (standDensity s), roundTo 1 (standPercent npop s),
            roundTo 1 (standPotential store growth_stage npop s)⟩,
           standPotential store growth_stage npop s) :=
    fun s hs => standSampleStep_ok store growth_stage npop s (harea s hs)
      hnpop hWF
  have hmap := mapM_ok_of_forall samples hstep
  have hx : standSampleStep store "mature" 40000
      ⟨some 1, some 10, some (9/10), some 36⟩ =
      .ok (⟨some 1, 36, 40000, 100, 100⟩, (100 : ℚ)) := by
    simp only [standSampleStep, Option.getD_some]
    rw [show pydiv ((36 : ℤ) : ℚ) ((10 : ℚ) * (9/10)) = .ok 4 by
      rw [pydiv, if_neg] <;> norm_num]
    simp only [ok_bind]
    rw [show pydiv ((4 : ℚ) * 10000) ((40000 : ℤ) : ℚ) = .ok 1 by
      rw [pydiv, if_neg] <;> norm_num]
    simp only [ok_bind]
    rw [if_pos (by simp [standMatureStages] : "mature" ∈ standMatureStages)]
    norm_num [roundTo, roundHalfEven]
    rfl
  have hconc : calculate_stand_reduction store
      [⟨some 1, some 10, some (9/10), some 36⟩] "mature" 40000 =
      .ok ⟨"stand_reduction", "mature", "direct_maturity", 40000, 100, 0,
        [⟨some 1, 36, 40000, 100, 100⟩]⟩ := by
    have hm2 : List.mapM (standSampleStep store "mature" 40000)
        [⟨some 1, some 10, some (9/10), some 36⟩] =
        .ok [(⟨some 1, 36, 40000, 100, 100⟩, (100 : ℚ))] := by
      rw [List.mapM_cons, hx, List.mapM_nil]
      rfl
    unfold calculate_stand_reduction
    rw [hm2]
    simp only [ok_bind]
    rw [if_neg (by simp : ¬([(⟨some 1, some 10, some (9/10), some 36⟩ :
      StandSample)] = []))]
    rw [if_pos (by simp [standMatureStages] : "mature" ∈ standMatureStages)]
    norm_num [roundTo, roundHalfEven]
    rfl
  have hrun : ∃ r,
      calculate_stand_reduction store samples growth_stage npop = .ok r ∧
      r.sample_details = samples.map (fun s =>
        ⟨s.sample_number, s.surviving_plants.getD 0,
         roundHalfEven (standDensity s), roundTo 1 (standPercent npop s),
         roundTo 1 (standPotential store growth_stage npop s)⟩) ∧
      r.average_potential_yield_pct = roundTo 2
        ((samples.map (standPotential store growth_stage npop)).sum /
          (samples.length : ℚ)) ∧
      r.loss_percentage = roundTo 2 (100 -
        (samples.map (standPotential store growth_stage npop)).sum /
          (samples.length : ℚ)) := by
    unfold calculate_stand_reduction
    rw [hmap]
    simp only [ok_bind, if_neg hne]
    refine ⟨_, rfl, ?_, ?_, ?_⟩
    · simp [List.map_map]
    · simp only [List.map_map]
      rfl
    · simp only [List.map_map]
      rfl
  obtain ⟨r, h1, h2, h3, h4⟩ := hrun
  exact ⟨r, h1, h2, h3, h4, hconc⟩


/-- Witness for C2: the concrete mature-stage scenario of the claim. -/
theorem C2_stand_reduction_calculator_witness :
    calculate_stand_reduction exhibit13demo
      [⟨some 1, some 10, some (9/10), some 36⟩] "mature" 40000 =
      .ok ⟨"stand_reduction", "mature", "direct_maturity", 40000, 100, 0,
        [⟨some 1, 36, 40000, 100, 100⟩]⟩ :=
  (C2_stand_reduction_calculator exhibit13demo
    [⟨some 1, some 10, some (9/10), some 36⟩] "mature" 40000
    (by simp)
    (by intro s hs; simp at hs; subst hs; norm_num)
    (by norm_num)
    (by simp [exhibit13demo, seriesFilter, condMatch, standTableName,
          standLateStages, List.filter])).choose_spec.2.2.2.2

/-! ## Hail damage (`CalculationService.calculate_hail_damage`) -/

/-- A hail-damage sample dict. -/
structure HailSample where
  sample_number : Option ℤ
  length_measured_m : Option ℚ
  row_width_m : Option ℚ
  original_stand_count : Option ℤ
  destroyed_plants : Option ℤ
  percent_defoliation : Option ℚ
  stalk_damage_severity : Option String
  growing_point_damage_pct : Option ℚ
  ear_damage_pct : Option ℚ
  direct_damage_pct : Option ℚ
  deriving Repr, DecidableEq

/-- One entry of the hail-damage `sample_details` list. -/
structure HailSampleDetail where
  sample_number : Option ℤ
  percent_stand_reduction_input : ℚ
  stand_damage_pct : ℚ
  defoliation_input_pct : ℚ
  defoliation_damage_pct : ℚ
  stalk_damage_pct : ℚ
  growing_point_damage_pct : ℚ
  ear_damage_pct : ℚ
  direct_damage_other_pct : ℚ
  total_direct_damage : ℚ
  total_sample_loss : ℚ
  deriving Repr, DecidableEq

/-- The averaged `damage_breakdown` dict. -/
structure HailBreakdown where
  stand_reduction : ℚ
  defoliation : ℚ
  stalk_damage : ℚ
  growing_point : ℚ
  ear_damage : ℚ
  other_direct : ℚ
  deriving Repr, DecidableEq

/-- The unrounded per-sample quantities accumulated by the loop. -/
structure HailComponents where
  stand_damage : ℚ
  defoliation_damage : ℚ
  stalk_damage : ℚ
  growing_point : ℚ
  ear_damage : ℚ
  other_direct : ℚ
  total_loss : ℚ
  deriving Repr, DecidableEq

/-- The dict returned by `calculate_hail_damage`. -/
structure HailDamageResult where
  method : String
  growth_stage : String
  loss_percentage : ℚ
  average_potential_yield_pct : ℚ
  damage_breakdown : HailBreakdown
  sample_details : List HailSampleDetail
  deriving Repr, DecidableEq

/-- Stand-reduction chart selection (`calculations.py:244-249`): Exhibit 13
for 7th–10th leaf, Exhibit 14 for 11th leaf–tassel, none otherwise. -/
def hailStandTable (growth_stage : String) : Option String :=
  if growth_stage ∈ ["7thLeaf", "8thLeaf", "9thLeaf", "10thLeaf"] then
    some "exhibit13_hailStandReduction"
  else if growth_stage ∈ ["11thLeaf", "12thLeaf", "13thLeaf", "14thLeaf",
      "15thLeaf", "16thLeaf", "tasseled"] then
    some "exhibit14_hailStandReduction"
  else none

/-- Python's `str.lower()`, written over the character list so that it
evaluates on literals. -/
def pyLower (s : String) : String := ⟨s.data.map Char.toLower⟩

/-- Severity bucket mapping (`calculations.py:291-295`), applied to the
lower-cased severity string. -/
def stalkSeverityPct (sev : String) : ℚ :=
  if pyLower sev = "light" then 10
  else if pyLower sev = "moderate" then 35
  else if pyLower sev = "severe" then 75
  else 0

/-- The raw destroyed/original percentage, clamped
(`calculations.py:262-263`). -/
def hailPercentReduction (s : HailSample) : ℚ :=
  let original := s.original_stand_count.getD 40
  let destroyed := s.destroyed_plants.getD 0
  min 100 (max 0 (if 0 < original then
    ((destroyed : ℚ) / (original : ℚ)) * 100 else 0))

/-- The stand-damage lookup of the hail loop (`calculations.py:265-273`):
raw percentage when no chart applies, otherwise chart lookup with the raw
percentage as `ValueError` fallback. -/
def hailStandDamageE (store : LookupStore) (growth_stage : String)
    (s : HailSample) : Except CalcError ℚ :=
  match hailStandTable growth_stage with
  | none => pure (hailPercentReduction s)
  | some t =>
    lookupValueOr store t (hailPercentReduction s) (some growth_stage)
      (hailPercentReduction s)

/-- The defoliation lookup of the hail loop (`calculations.py:276-285`):
0 when defoliation is absent, otherwise chart lookup with 0 fallback. -/
def hailDefolDamageE (store : LookupStore) (growth_stage : String)
    (s : HailSample) : Except CalcError ℚ :=
  if 0 < s.percent_defoliation.getD 0 then
    lookupValueOr store "exhibit15_leafLoss" (s.percent_defoliation.getD 0)
      (some growth_stage) 0
  else pure 0

/-- The body of `calculate_hail_damage`'s per-sample loop
(`calculations.py:253-339`). -/
def hailSampleStep (store : LookupStore) (growth_stage : String)
    (s : HailSample) : Except CalcError (HailSampleDetail × HailComponents) := do
  let percent_reduction := hailPercentReduction s
  let stand_damage ← hailStandDamageE store growth_stage s
  let pd := s.percent_defoliation.getD 0
  let defol ← hailDefolDamageE store growth_stage s
  let stalk := stalkSeverityPct (s.stalk_damage_severity.getD "none")
  let gp := s.growing_point_damage_pct.getD 0
  let ear := s.ear_damage_pct.getD 0
  let other := s.direct_damage_pct.getD 0
  let total_direct := min 100 (stand_damage + stalk + gp + ear + other)
  let total := min 100 (total_direct + defol)
  pure (⟨s.sample_number, roundTo 1 percent_reduction, roundTo 1 stand_damage,
         roundTo 1 pd, roundTo 1 defol, roundTo 1 stalk, roundTo 1 gp,
         roundTo 1 ear, roundTo 1 other, roundTo 1 total_direct,
         roundTo 1 total⟩,
        ⟨stand_damage, defol, stalk, gp, ear, other, total⟩)

/-- `freshId` models uuid generation: an id unused by the store. -/
def freshId (store : LookupStore) : ℕ :=
  (store.map (·.id)).foldr max 0 + 1

/-- Build the seeded rows for one table/condition, with consecutive fresh
ids starting at `i`. -/
def seedRowsAux (t cond : String) : ℕ → List (ℚ × ℚ) → List LookupEntry
  | _, [] => []
  | i, (x, y) :: rest => ⟨i, t, x, some cond, y⟩ :: seedRowsAux t cond (i + 1) rest

/-- Append seeded rows for one table/condition to the store. -/
def seedRows (store : LookupStore) (t : String) (cond : String)
    (rows : List (ℚ × ℚ)) : LookupStore :=
  store ++ seedRowsAux t cond (freshId store) rows

/-- `seed_exhibit_17` (`calculations.py:754-758`): a no-op (`pass`). -/
def seed_exhibit_17 (store : LookupStore) : LookupStore := store

/-- `seed_exhibit_23` (`calculations.py:760-777`). -/
def seed_exhibit_23 (store : LookupStore) : LookupStore :=
  if store.any (fun e => e.table_name == "exhibit23_moistureAdjustment") then
    store
  else
    seedRows store "exhibit23_moistureAdjustment" "moisture_factor"
      [(10, 1.0588), (15, 1), (20, 0.9412), (25, 0.8824), (30, 0.8235),
       (35, 0.7647)]

/-- `seed_exhibit_24` (`calculations.py:779-795`). -/
def seed_exhibit_24 (store : LookupStore) : LookupStore :=
  if store.any (fun e => e.table_name == "exhibit24_testWeightPack") then
    store
  else
    seedRows store "exhibit24_testWeightPack" "factor"
      [(56, 1), (55, 0.99), (54, 0.98), (53, 0.97), (52, 0.96), (51, 0.95),
       (50, 0.94), (49, 0.93), (48, 0.92), (47, 0.91), (46, 0.90), (45, 0.89)]

/-- `seed_exhibit_21` (`calculations.py:735-752`). -/
def seed_exhibit_21 (store : LookupStore) : LookupStore :=
  if store.any (fun e => e.table_name == "exhibit21_silageMoisture") then
    store
  else
    seedRows store "exhibit21_silageMoisture" "factor"
      [(50, 1.4), (55, 1.25), (60, 1.15), (65, 1), (70, 0.9), (75, 0.8),
       (80, 0.7)]

/-- `CalculationService.calculate_hail_damage` (`calculations.py:215-360`).
Returns the result dict together with the store as left after the seeding
calls at lines 348-351 (`seed_exhibit_17/23/24`). -/
def calculate_hail_damage (store : LookupStore) (samples : List HailSample)
    (growth_stage : String) :
    Except CalcError (HailDamageResult × LookupStore) := do
  let pairs ← samples.mapM (hailSampleStep store growth_stage)
  let comps := pairs.map Prod.snd
  let total_damage := (comps.map (·.total_loss)).sum
  let avg_loss := if samples = [] then 0
    else total_damage / (samples.length : ℚ)
  let avg_potential := 100 - avg_loss
  let num : ℚ := if samples = [] then 1 else (samples.length : ℚ)
  let breakdown : HailBreakdown :=
    ⟨roundTo 1 ((comps.map (·.stand_damage)).sum / num),
     roundTo 1 ((comps.map (·.defoliation_damage)).sum / num),
     roundTo 1 ((comps.map (·.stalk_damage)).sum / num),
     roundTo 1 ((comps.map (·.growing_point)).sum / num),
     roundTo 1 ((comps.map (·.ear_damage)).sum / num),
     roundTo 1 ((comps.map (·.other_direct)).sum / num)⟩
  let store2 := seed_exhibit_24 (seed_exhibit_23 (seed_exhibit_17 store))
  pure (⟨"hail_damage", growth_stage, roundTo 1 avg_loss,
         roundTo 1 avg_potential, breakdown, pairs.map Prod.fst⟩, store2)

/-! Claim-side formulas for C3, written from the specification's words. -/

/-- Spec (a): chart-resolved stand-reduction damage, falling back to the
raw destroyed/original percentage when no chart applies or the resolver
fails. -/
def hailClaimStandDamage (store : LookupStore) (growth_stage : String)
    (s : HailSample) : ℚ :=
  match hailStandTable growth_stage with
  | none => hailPercentReduction s
  | some t =>
    match get_lookup_value store t (hailPercentReduction s)
        (some growth_stage) with
    | .ok v => v
    | .error _ => hailPercentReduction s

/-- Spec (b): chart-resolved defoliation damage, 0 when defoliation is
absent or the resolver fails. -/
def hailClaimDefolDamage (store : LookupStore) (growth_stage : String)
    (s : HailSample) : ℚ :=
  if 0 < s.percent_defoliation.getD 0 then
    match get_lookup_value store "exhibit15_leafLoss"
        (s.percent_defoliation.getD 0) (some growth_stage) with
    | .ok v => v
    | .error _ => 0
  else 0

/-- Spec (c): direct damage = stalk-severity % + growing-point % + ear % +
other direct %. -/
def hailClaimDirect (s : HailSample) : ℚ :=
  stalkSeverityPct (s.stalk_damage_severity.getD "none") +
    s.growing_point_damage_pct.getD 0 + s.ear_damage_pct.getD 0 +
    s.direct_damage_pct.getD 0

/-- Spec: per-sample total loss = (a) + (b) + (c), capped at 100 %. -/
def hailClaimLoss (store : LookupStore) (growth_stage : String)
    (s : HailSample) : ℚ :=
  min 100 (hailClaimStandDamage store growth_stage s +
    hailClaimDefolDamage store growth_stage s + hailClaimDirect s)

theorem min_cap_assoc (d b : ℚ) (hb : 0 ≤ b) :
    min 100 (min 100 d + b) = min 100 (d + b) := by
  rcases le_total d 100 with h | h
  · rw [min_eq_right h]
  · rw [min_eq_left h, min_eq_left (by linarith), min_eq_left (by linarith)]

theorem hailSampleStep_ok (store : LookupStore) (growth_stage : String)
    (s : HailSample)
    (hWFs : ∀ t, hailStandTable growth_stage = some t →
      (seriesFilter store t (some growth_stage)).Pairwise
        (fun a b => a.input_value ≠ b.input_value))
    (hWFd : (seriesFilter store "exhibit15_leafLoss"
      (some growth_stage)).Pairwise
        (fun a b => a.input_value ≠ b.input_value))
    (hb : 0 ≤ hailClaimDefolDamage store growth_stage s) :
    hailSampleStep store growth_stage s = .ok
      (⟨s.sample_number, roundTo 1 (hailPercentReduction s),
        roundTo 1 (hailClaimStandDamage store growth_stage s),
        roundTo 1 (s.percent_defoliation.getD 0),
        roundTo 1 (hailClaimDefolDamage store growth_stage s),
        roundTo 1 (stalkSeverityPct (s.stalk_damage_severity.getD "none")),
        roundTo 1 (s.growing_point_damage_pct.getD 0),
        roundTo 1 (s.ear_damage_pct.getD 0),
        roundTo 1 (s.direct_damage_pct.getD 0),
        roundTo 1 (min 100 (hailClaimStandDamage store growth_stage s +
          stalkSeverityPct (s.stalk_damage_severity.getD "none") +
          s.growing_point_damage_pct.getD 0 + s.ear_damage_pct.getD 0 +
          s.direct_damage_pct.getD 0)),
        roundTo 1 (hailClaimLoss store growth_stage s)⟩,
       ⟨hailClaimStandDamage store growth_stage s,
        hailClaimDefolDamage store growth_stage s,
        stalkSeverityPct (s.stalk_damage_severity.getD "none"),
        s.growing_point_damage_pct.getD 0, s.ear_damage_pct.getD 0,
        s.direct_damage_pct.getD 0,
        hailClaimLoss store growth_stage s⟩) := by
  have h1 : hailStandDamageE store growth_stage s =
      (.ok (hailClaimStandDamage store growth_stage s) :
        Except CalcError ℚ) := by
    rcases ht : hailStandTable growth_stage with _ | t
    · simp only [hailStandDamageE, hailClaimStandDamage, ht]
      rfl
    · simp only [hailStandDamageE, hailClaimStandDamage, ht, lookupValueOr]
      rcases hr : get_lookup_value store t (hailPercentReduction s)
          (some growth_stage) with e | v
      · rcases e with _ | _
        · rfl
        · exact absurd hr (get_lookup_value_ne_multiple (hWFs t ht))
      · rfl
  have h2 : hailDefolDamageE store growth_stage s =
      (.ok (hailClaimDefolDamage store growth_stage s) :
        Except CalcError ℚ) := by
    by_cases hpd : 0 < s.percent_defoliation.getD 0
    · rw [hailDefolDamageE, if_pos hpd]
      simp only [hailClaimDefolDamage, if_pos hpd, lookupValueOr]
      rcases hr : get_lookup_value store "exhibit15_leafLoss"
          (s.percent_defoliation.getD 0) (some growth_stage) with e | v
      · rcases e with _ | _
        · rfl
        · exact absurd hr (get_lookup_value_ne_multiple hWFd)
      · rfl
    · rw [hailDefolDamageE, if_neg hpd]
      simp only [hailClaimDefolDamage, if_neg hpd]
      rfl
  have htot : min 100 (min 100 (hailClaimStandDamage store growth_stage s +
      stalkSeverityPct (s.stalk_damage_severity.getD "none") +
      s.growing_point_damage_pct.getD 0 + s.ear_damage_pct.getD 0 +
      s.direct_damage_pct.getD 0) +
      hailClaimDefolDamage store growth_stage s) =
      hailClaimLoss store growth_stage s := by
    rw [min_cap_assoc _ _ hb, hailClaimLoss, hailClaimDirect]
    congr 1
    ring
  simp only [hailSampleStep]
  rw [h1]
  simp only [ok_bind]
  rw [h2]
  simp only [ok_bind]
  rw [htot]
  rfl

/-- C3. The hail-damage calculator: per-sample total loss is the capped sum
of chart-resolved stand damage (raw-percentage fallback), chart-resolved
defoliation damage (0 fallback), and the additive direct damage; the
aggregate loss is the mean over samples, with a component-wise averaged
breakdown; and the concrete 10 %-stand-reduction→3 % plus 50 %
defoliation→20 % scenario yields a 23 % sample loss. -/
theorem C3_hail_damage_calculator (store : LookupStore)
    (samples : List HailSample) (growth_stage : String)
    (hne : samples ≠ [])
    (hWFs : ∀ t, hailStandTable growth_stage = some t →
      (seriesFilter store t (some growth_stage)).Pairwise
        (fun a b => a.input_value ≠ b.input_value))
    (hWFd : (seriesFilter store "exhibit15_leafLoss"
      (some growth_stage)).Pairwise
        (fun a b => a.input_value ≠ b.input_value))
    (hb : ∀ s ∈ samples, 0 ≤ hailClaimDefolDamage store growth_stage s) :
    ∃ r store2,
      calculate_hail_damage store samples growth_stage = .ok (r, store2) ∧
      r.sample_details.map (·.total_sample_loss) =
        samples.map (fun s => roundTo 1 (hailClaimLoss store growth_stage s)) ∧
      r.loss_percentage = roundTo 1
        ((samples.map (hailClaimLoss store growth_stage)).sum /
          (samples.length : ℚ)) ∧
      r.average_potential_yield_pct = roundTo 1 (100 -
        (samples.map (hailClaimLoss store growth_stage)).sum /
          (samples.length : ℚ)) ∧
      r.damage_breakdown =
        ⟨roundTo 1 ((samples.map
            (hailClaimStandDamage store growth_stage)).sum /
          (samples.length : ℚ)),
         roundTo 1 ((samples.map
            (hailClaimDefolDamage store growth_stage)).sum /
          (samples.length : ℚ)),
         roundTo 1 ((samples.map (fun s =>
            stalkSeverityPct (s.stalk_damage_severity.getD "none"))).sum /
          (samples.length : ℚ)),
         roundTo 1 ((samples.map (fun s =>
            s.growing_point_damage_pct.getD 0)).sum / (samples.length : ℚ)),
         roundTo 1 ((samples.map (fun s => s.ear_damage_pct.getD 0)).sum /
          (samples.length : ℚ)),
         roundTo 1 ((samples.map (fun s => s.direct_damage_pct.getD 0)).sum /
          (samples.length : ℚ))⟩ := by
  have hstep : ∀ s ∈ samples, hailSampleStep store growth_stage s = .ok
      (⟨s.sample_number, roundTo 1 (hailPercentReduction s),
        roundTo 1 (hailClaimStandDamage store growth_stage s),
        roundTo 1 (s.percent_defoliation.getD 0),
        roundTo 1 (hailClaimDefolDamage store growth_stage s),
        roundTo 1 (stalkSeverityPct (s.stalk_damage_severity.getD "none")),
        roundTo 1 (s.growing_point_damage_pct.getD 0),
        roundTo 1 (s.ear_damage_pct.getD 0),
        roundTo 1 (s.direct_damage_pct.getD 0),
        roundTo 1 (min 100 (hailClaimStandDamage store growth_stage s +
          stalkSeverityPct (s.stalk_damage_severity.getD "none") +
          s.growing_point_damage_pct.getD 0 + s.ear_damage_pct.getD 0 +
          s.direct_damage_pct.getD 0)),
        roundTo 1 (hailClaimLoss store growth_stage s)⟩,
       ⟨hailClaimStandDamage store growth_stage s,
        hailClaimDefolDamage store growth_stage s,
        stalkSeverityPct (s.stalk_damage_severity.getD "none"),
        s.growing_point_damage_pct.getD 0, s.ear_damage_pct.getD 0,
        s.direct_damage_pct.getD 0,
        hailClaimLoss store growth_stage s⟩) :=
    fun s hs => hailSampleStep_ok store growth_stage s hWFs hWFd (hb s hs)
  have hmap := mapM_ok_of_forall samples hstep
  unfold calculate_hail_damage
  rw [hmap]
  simp only [ok_bind, if_neg hne]
  refine ⟨_, _, rfl, ?_, ?_, ?_, ?_⟩
  · simp [List.map_map]
  · simp only [List.map_map]
    rfl
  · simp only [List.map_map]
    rfl
  · simp only [List.map_map]
    rfl

/-- Exhibit 13 stage-`7thLeaf` rows plus an Exhibit 15 leaf-loss row
(50 % defoliation → 20 % loss), the claim's concrete hail scenario. -/
def hailDemoStore : LookupStore :=
  exhibit13demo ++ [⟨4, "exhibit15_leafLoss", 50, some "7thLeaf", 20⟩]

/-- The claim's concrete hail sample: original stand 40, 4 destroyed
(10 % reduction), 50 % defoliation, no other damage. -/
def hailDemoSample : HailSample :=
  ⟨some 1, none, none, some 40, some 4, some 50, none, none, none, none⟩

theorem hailDemo_stand_damage :
    hailClaimStandDamage hailDemoStore "7thLeaf" hailDemoSample = 3 := by
  have hpr : hailPercentReduction hailDemoSample = 10 := by
    norm_num [hailPercentReduction, hailDemoSample, min_def, max_def]
  norm_num [hailClaimStandDamage, hailStandTable, hpr, get_lookup_value,
    exactMatches, seriesFilter, condMatch, List.filter, hailDemoStore,
    exhibit13demo]

theorem hailDemo_defol_damage :
    hailClaimDefolDamage hailDemoStore "7thLeaf" hailDemoSample = 20 := by
  norm_num [hailClaimDefolDamage, hailDemoSample, get_lookup_value,
    exactMatches, seriesFilter, condMatch, List.filter, hailDemoStore,
    exhibit13demo]

theorem hailDemo_loss :
    hailClaimLoss hailDemoStore "7thLeaf" hailDemoSample = 23 := by
  have hlow : pyLower "none" = "none" := by decide
  have hdir : hailClaimDirect hailDemoSample = 0 := by
    simp [hailClaimDirect, hailDemoSample, stalkSeverityPct, hlow]
  rw [hailClaimLoss, hailDemo_stand_damage, hailDemo_defol_damage, hdir]
  norm_num [min_def]

/-- Witness for C3: the concrete scenario — 10 % stand reduction resolving
to 3 % chart damage plus 50 % defoliation resolving to 20 % loss gives a
23 % per-sample and aggregate loss. -/
theorem C3_hail_damage_calculator_witness :
    ∃ r store2, calculate_hail_damage hailDemoStore [hailDemoSample]
        "7thLeaf" = .ok (r, store2) ∧
      r.sample_details.map (·.total_sample_loss) = [23] ∧
      r.loss_percentage = 23 := by
  obtain ⟨r, store2, h0, hdet, hloss, -, -⟩ :=
    C3_hail_damage_calculator hailDemoStore [hailDemoSample] "7thLeaf"
      (by simp)
      (by
        intro t ht
        simp only [hailStandTable] at ht
        rw [if_pos (by simp)] at ht
        cases ht
        simp [hailDemoStore, exhibit13demo, seriesFilter, condMatch,
          List.filter, List.pairwise_cons])
      (by
        simp [hailDemoStore, exhibit13demo, seriesFilter, condMatch,
          List.filter, List.pairwise_cons])
      (by
        intro s hs
        rw [List.mem_singleton] at hs
        subst hs
        rw [hailDemo_defol_damage]
        norm_num)
  refine ⟨r, store2, h0, ?_, ?_⟩
  · rw [hdet]
    simp only [List.map_cons, List.map_nil, hailDemo_loss]
    norm_num [roundTo, roundHalfEven]
  · rw [hloss]
    simp only [List.map_cons, List.map_nil, List.sum_cons, List.sum_nil,
      hailDemo_loss, List.length_singleton]
    norm_num [roundTo, roundHalfEven]

/-! ## Weight (grain yield) method
(`CalculationService.calculate_weight_method`) -/

/-- A weight-method sample dict. -/
structure WeightSample where
  sample_number : Option ℤ
  weight_lbs : Option ℚ
  sample_area_acres : Option ℚ
  foreign_material_pct : Option ℚ
  damaged_kernels_pct : Option ℚ
  broken_kernels_pct : Option ℚ
  heat_damage_pct : Option ℚ
  deriving Repr, DecidableEq

/-- The nested `quality_adjustments` dict. -/
structure WeightQualityAdjustments where
  moisture_factor : ℚ
  test_weight_factor : ℚ
  foreign_material_deduction : ℚ
  damaged_kernel_deduction : ℚ
  broken_kernel_deduction : ℚ
  heat_damage_deduction : ℚ
  deriving Repr, DecidableEq

/-- One entry of the weight-method `sample_details` list. -/
structure WeightSampleDetail where
  sample_number : Option ℤ
  raw_weight_lbs : ℚ
  shelled_weight_lbs : ℚ
  yield_bu_acre_raw : ℚ
  quality_adjustments : WeightQualityAdjustments
  yield_bu_acre_adj : ℚ
  deriving Repr, DecidableEq

/-- The dict returned by `calculate_weight_method`. -/
structure WeightMethodResult where
  method : String
  avg_yield_bu_acre : ℚ
  moisture_factor : ℚ
  test_weight_factor : ℚ
  sample_details : List WeightSampleDetail
  deriving Repr, DecidableEq

/-- Moisture factor (`calculations.py:392-396`): Exhibit 23 lookup when
moisture is given, 1.0 otherwise; the bare `except: pass` keeps 1.0 on
*any* resolver error. -/
def weightMoistureFactor (store : LookupStore) (moisture_pct : Option ℚ) :
    ℚ :=
  match moisture_pct with
  | none => 1
  | some m =>
    match get_lookup_value store "exhibit23_moistureAdjustment" m
        (some "moisture_factor") with
    | .ok v => v
    | .error _ => 1

/-- Test-weight factor (`calculations.py:398-404`): Exhibit 24 lookup when
test weight is given, 1.0 otherwise, bare `except` fallback. -/
def weightTestWeightFactor (store : LookupStore) (test_weight : Option ℚ) :
    ℚ :=
  match test_weight with
  | none => 1
  | some w =>
    match get_lookup_value store "exhibit24_testWeightPack" w
        (some "factor") with
    | .ok v => v
    | .error _ => 1

/-- The body of `calculate_weight_method`'s per-sample loop
(`calculations.py:406-458`).  The shelling factor is the constant 0.8
(`shelling_factor = 0.8`, line 414 — never resolver-derived). -/
def weightSampleStep (mf twf : ℚ) (s : WeightSample) :
    Except CalcError (WeightSampleDetail × ℚ) := do
  let weight_lbs := s.weight_lbs.getD 0
  let area_acres := s.sample_area_acres.getD (1/100)
  let shelling_factor : ℚ := 4/5
  let shelled_weight := weight_lbs * shelling_factor
  let bushels_sample := shelled_weight / 56
  let raw ← pydiv bushels_sample area_acres
  let adj := raw * mf * twf
  let fm := s.foreign_material_pct.getD 0 / 100
  let dk := s.damaged_kernels_pct.getD 0 / 100
  let bk := s.broken_kernels_pct.getD 0 / 100
  let hd := s.heat_damage_pct.getD 0 / 100
  let ded := fm + dk + bk + hd
  let final := adj * (1 - ded)
  pure (⟨s.sample_number, weight_lbs, roundTo 1 shelled_weight,
         roundTo 1 raw,
         ⟨mf, twf, roundTo 1 (fm * 100), roundTo 1 (dk * 100),
          roundTo 1 (bk * 100), roundTo 1 (hd * 100)⟩,
         roundTo 1 final⟩, final)

/-- `CalculationService.calculate_weight_method`
(`calculations.py:362-468`). -/
def calculate_weight_method (store : LookupStore)
    (samples : List WeightSample) (row_width_m : ℚ := 76/100)
    (moisture_pct : Option ℚ := none) (test_weight : Option ℚ := none) :
    Except CalcError WeightMethodResult := do
  let mf := weightMoistureFactor store moisture_pct
  let twf := weightTestWeightFactor store test_weight
  let pairs ← samples.mapM (weightSampleStep mf twf)
  let total := (pairs.map Prod.snd).sum
  let avg := if samples = [] then 0 else total / (samples.length : ℚ)
  pure ⟨"weight_method", roundTo 1 avg, mf, twf, pairs.map Prod.fst⟩

/-- Modelled from the spec: the claim's shelling factor — "0.8 by default
and resolver-derived from moisture when moisture is available" — resolved
against the (otherwise unused) Exhibit 17 shelling chart. -/
def claimShellingFactor (store : LookupStore) (moisture_pct : Option ℚ) :
    ℚ :=
  match moisture_pct with
  | none => 4/5
  | some m =>
    match get_lookup_value store "exhibit17_shellingFactors" m none with
    | .ok v => v
    | .error _ => 4/5

/-- The claim's per-sample adjusted yield with the amended (actual)
constant-0.8 shelling: bushels per acre times the moisture, test-weight
and quality-deduction multipliers. -/
def weightClaimYield (store : LookupStore) (mp tw : Option ℚ)
    (s : WeightSample) : ℚ :=
  s.weight_lbs.getD 0 * (4/5) / 56 / s.sample_area_acres.getD (1/100) *
    weightMoistureFactor store mp * weightTestWeightFactor store tw *
    (1 - (s.foreign_material_pct.getD 0 + s.damaged_kernels_pct.getD 0 +
      s.broken_kernels_pct.getD 0 + s.heat_damage_pct.getD 0) / 100)

theorem weightSampleStep_ok (mf twf : ℚ) (s : WeightSample)
    (harea : s.sample_area_acres.getD (1/100) ≠ 0) :
    weightSampleStep mf twf s = .ok
      (⟨s.sample_number, s.weight_lbs.getD 0,
        roundTo 1 (s.weight_lbs.getD 0 * (4/5)),
        roundTo 1 (s.weight_lbs.getD 0 * (4/5) / 56 /
          s.sample_area_acres.getD (1/100)),
        ⟨mf, twf, roundTo 1 (s.foreign_material_pct.getD 0 / 100 * 100),
         roundTo 1 (s.damaged_kernels_pct.getD 0 / 100 * 100),
         roundTo 1 (s.broken_kernels_pct.getD 0 / 100 * 100),
         roundTo 1 (s.heat_damage_pct.getD 0 / 100 * 100)⟩,
        roundTo 1 (s.weight_lbs.getD 0 * (4/5) / 56 /
          s.sample_area_acres.getD (1/100) * mf * twf *
          (1 - (s.foreign_material_pct.getD 0 +
            s.damaged_kernels_pct.getD 0 + s.broken_kernels_pct.getD 0 +
            s.heat_damage_pct.getD 0) / 100))⟩,
       s.weight_lbs.getD 0 * (4/5) / 56 /
          s.sample_area_acres.getD (1/100) * mf * twf *
          (1 - (s.foreign_material_pct.getD 0 +
            s.damaged_kernels_pct.getD 0 + s.broken_kernels_pct.getD 0 +
            s.heat_damage_pct.getD 0) / 100)) := by
  have hdiv : pydiv (s.weight_lbs.getD 0 * (4/5) / 56)
      (s.sample_area_acres.getD (1/100)) =
      .ok (s.weight_lbs.getD 0 * (4/5) / 56 /
        s.sample_area_acres.getD (1/100)) := by
    rw [pydiv, if_neg harea]
  have hfinal : s.weight_lbs.getD 0 * (4/5) / 56 /
      s.sample_area_acres.getD (1/100) * mf * twf *
      (1 - (s.foreign_material_pct.getD 0 / 100 +
        s.damaged_kernels_pct.getD 0 / 100 +
        s.broken_kernels_pct.getD 0 / 100 +
        s.heat_damage_pct.getD 0 / 100)) =
      s.weight_lbs.getD 0 * (4/5) / 56 /
        s.sample_area_acres.getD (1/100) * mf * twf *
        (1 - (s.foreign_material_pct.getD 0 +
          s.damaged_kernels_pct.getD 0 + s.broken_kernels_pct.getD 0 +
          s.heat_damage_pct.getD 0) / 100) := by
    ring
  simp only [weightSampleStep]
  rw [hdiv]
  simp only [ok_bind]
  rw [hfinal]
  rfl

/-- C4 amended. The weight-method pipeline with a constant 0.8 shelling
factor: shelled weight = 0.8 × sample weight, normalized to bushels per
acre, multiplied by the chart-resolved moisture and test-weight factors
(1.0 on absence or any resolver failure) and the quality deduction, with
the aggregate as the mean of per-sample adjusted yields. -/
theorem C4_weight_method_calculator (store : LookupStore)
    (samples : List WeightSample) (rw_m : ℚ) (mp tw : Option ℚ)
    (hne : samples ≠ [])
    (harea : ∀ s ∈ samples, s.sample_area_acres.getD (1/100) ≠ 0) :
    ∃ r, calculate_weight_method store samples rw_m mp tw = .ok r ∧
      r.sample_details.map (·.shelled_weight_lbs) =
        samples.map (fun s => roundTo 1 (s.weight_lbs.getD 0 * (4/5))) ∧
      r.sample_details.map (·.yield_bu_acre_adj) =
        samples.map (fun s => roundTo 1 (weightClaimYield store mp tw s)) ∧
      r.avg_yield_bu_acre = roundTo 1
        ((samples.map (weightClaimYield store mp tw)).sum /
          (samples.length : ℚ)) ∧
      r.moisture_factor = weightMoistureFactor store mp ∧
      r.test_weight_factor = weightTestWeightFactor store tw := by
  have hstep : ∀ s ∈ samples,
      weightSampleStep (weightMoistureFactor store mp)
        (weightTestWeightFactor store tw) s = .ok
      (⟨s.sample_number, s.weight_lbs.getD 0,
        roundTo 1 (s.weight_lbs.getD 0 * (4/5)),
        roundTo 1 (s.weight_lbs.getD 0 * (4/5) / 56 /
          s.sample_area_acres.getD (1/100)),
        ⟨weightMoistureFactor store mp, weightTestWeightFactor store tw,
         roundTo 1 (s.foreign_material_pct.getD 0 / 100 * 100),
         roundTo 1 (s.damaged_kernels_pct.getD 0 / 100 * 100),
         roundTo 1 (s.broken_kernels_pct.getD 0 / 100 * 100),
         roundTo 1 (s.heat_damage_pct.getD 0 / 100 * 100)⟩,
        roundTo 1 (weightClaimYield store mp tw s)⟩,
       weightClaimYield store mp tw s) :=
    fun s hs => weightSampleStep_ok _ _ s (harea s hs)
  have hmap := mapM_ok_of_forall samples hstep
  simp only [calculate_weight_method]
  rw [hmap]
  simp only [ok_bind, if_neg hne]
  refine ⟨_, rfl, ?_, ?_, ?_, rfl, rfl⟩
  · simp [List.map_map]
  · simp [List.map_map]
  · simp only [List.map_map]
    rfl

/-- The store for the C4 counterexample: an Exhibit 17 shelling row
mapping moisture 25 to shelling factor 0.75. -/
def c4store : LookupStore :=
  [⟨1, "exhibit17_shellingFactors", 25, none, 3/4⟩]

/-- C4 counterexample: with moisture 25 available and a shelling chart
mapping it to 0.75, the code still shells at 0.8 (56 lbs → 44.8 lbs),
not at the resolver-derived 0.75 (56 lbs → 42 lbs) the claim asserts. -/
theorem C4_weight_shelling_counterexample :
    ∃ r, calculate_weight_method c4store
        [⟨some 1, some 56, none, none, none, none, none⟩] (76/100)
        (some 25) none = .ok r ∧
      r.sample_details.map (·.shelled_weight_lbs) = [224/5] ∧
      claimShellingFactor c4store (some 25) = 3/4 ∧
      roundTo 1 (56 * claimShellingFactor c4store (some 25)) = 42 ∧
      (224/5 : ℚ) ≠ 42 := by
  have hshell : claimShellingFactor c4store (some 25) = 3/4 := by
    norm_num [claimShellingFactor, c4store, get_lookup_value, exactMatches,
      seriesFilter, condMatch, List.filter]
  obtain ⟨r, h0, hsh, -, -, -, -⟩ := C4_weight_method_calculator c4store
    [⟨some 1, some 56, none, none, none, none, none⟩] (76/100) (some 25)
    none (by simp) (by intro s hs; rw [List.mem_singleton] at hs; subst hs
                       norm_num)
  refine ⟨r, h0, ?_, hshell, ?_, by norm_num⟩
  · rw [hsh]
    norm_num [roundTo, roundHalfEven]
  · rw [hshell]
    norm_num [roundTo, roundHalfEven]

/-- Witness for C4 (amended): concrete run — 56 lbs shelled at the
constant factor 0.8 gives 44.8 lbs. -/
theorem C4_weight_method_calculator_witness :
    ∃ r, calculate_weight_method c4store
        [⟨some 1, some 56, none, none, none, none, none⟩] (76/100)
        (some 25) none = .ok r ∧
      r.sample_details.map (·.shelled_weight_lbs) = [224/5] := by
  obtain ⟨r, h0, hsh, -, -, -, -⟩ := C4_weight_method_calculator c4store
    [⟨some 1, some 56, none, none, none, none, none⟩] (76/100) (some 25)
    none (by simp) (by intro s hs; rw [List.mem_singleton] at hs; subst hs
                       norm_num)
  refine ⟨r, h0, ?_⟩
  rw [hsh]
  norm_num [roundTo, roundHalfEven]

/-- C8. Degenerate sample areas are *not* guarded: a zero row length (so
zero sample area) makes the stand-reduction calculator raise
`ZeroDivisionError`, and a zero `sample_area_acres` makes the weight
method raise `ZeroDivisionError`, instead of returning a zero-safe
sentinel as the specification requires. -/
theorem C8_zero_area_raises (store : LookupStore) (growth_stage : String)
    (npop : ℤ) (rw_m : ℚ) (mp tw : Option ℚ) :
    calculate_stand_reduction store
      [⟨some 1, some 0, some (9/10), some 5⟩] growth_stage npop =
      .error .zeroDivision ∧
    calculate_weight_method store
      [⟨some 1, some 2, some 0, none, none, none, none⟩] rw_m mp tw =
      .error .zeroDivision := by
  constructor
  · have hstep : standSampleStep store growth_stage npop
        ⟨some 1, some 0, some (9/10), some 5⟩ = .error .zeroDivision := by
      simp only [standSampleStep, Option.getD_some]
      rw [show pydiv ((5 : ℤ) : ℚ) ((0 : ℚ) * (9/10)) =
          .error .zeroDivision by rw [pydiv, if_pos (by norm_num)]]
      rfl
    simp only [calculate_stand_reduction]
    rw [List.mapM_cons, hstep]
    rfl
  · have hstep : weightSampleStep (weightMoistureFactor store mp)
        (weightTestWeightFactor store tw)
        ⟨some 1, some 2, some 0, none, none, none, none⟩ =
        .error .zeroDivision := by
      simp only [weightSampleStep, Option.getD_some]
      rw [show pydiv ((2 : ℚ) * (4/5) / 56) (0 : ℚ) =
          .error .zeroDivision by rw [pydiv, if_pos rfl]]
      rfl
    simp only [calculate_weight_method]
    rw [List.mapM_cons, hstep]
    rfl

/-- C10. On the empty sample list neither calculator raises, yet they
disagree on the neutral value: stand reduction reports 0 % potential yield
and 100 % loss (total loss), while hail damage reports 0 % loss and 100 %
potential yield (no loss). -/
theorem C10_empty_sample_lists (store : LookupStore) (growth_stage : String)
    (npop : ℤ) :
    calculate_stand_reduction store [] growth_stage npop =
      .ok ⟨"stand_reduction", growth_stage,
        (if growth_stage ∈ standMatureStages then "direct_maturity"
         else standTableName growth_stage), npop, 0, 100, []⟩ ∧
    calculate_hail_damage store [] growth_stage =
      .ok (⟨"hail_damage", growth_stage, 0, 100, ⟨0, 0, 0, 0, 0, 0⟩, []⟩,
        seed_exhibit_24 (seed_exhibit_23 (seed_exhibit_17 store))) := by
  constructor
  · simp only [calculate_stand_reduction, List.mapM_nil]
    norm_num [roundTo, roundHalfEven]
    rfl
  · simp only [calculate_hail_damage, List.mapM_nil]
    norm_num [roundTo, roundHalfEven]
    rfl

/-! ## Tonnage (silage) method
(`CalculationService.calculate_tonnage_method`) -/

/-- A tonnage sample dict. -/
structure TonnageSample where
  sample_number : Option ℤ
  fresh_weight_lbs : Option ℚ
  sample_area_acres : Option ℚ
  deriving Repr, DecidableEq

/-- One entry of the tonnage `sample_details` list. -/
structure TonnageSampleDetail where
  sample_number : Option ℤ
  fresh_weight_lbs : ℚ
  tons_per_acre_raw : ℚ
  tons_per_acre_adj : ℚ
  deriving Repr, DecidableEq

/-- The dict returned by `calculate_tonnage_method`. -/
structure TonnageResult where
  method : String
  tons_per_acre : ℚ
  moisture_adjusted_tons : ℚ
  quality_grade : String
  quality_multiplier : ℚ
  recommended_for_silage : Bool
  tonnage_confidence : ℚ
  sample_details : List TonnageSampleDetail
  deriving Repr, DecidableEq

/-- Auto grade thresholds (`calculations.py:574-577`). -/
def tonnageAutoGrade (moisture_pct visual_damage_pct : ℚ) : String :=
  if moisture_pct ≤ 65 ∧ visual_damage_pct ≤ 10 then "excellent"
  else if moisture_pct ≤ 70 ∧ visual_damage_pct ≤ 25 then "good"
  else if moisture_pct ≤ 75 ∧ visual_damage_pct ≤ 50 then "fair"
  else "poor"

/-- Final grade (`calculations.py:571-581`): the lower-cased manual grade
when truthy, otherwise the auto grade. -/
def tonnageFinalGrade (quality_grade : Option String) (auto : String) :
    String :=
  match quality_grade with
  | some g => if g = "" then auto else pyLower g
  | none => auto

/-- `quality_map.get(final_grade, 0.70)` (`calculations.py:585-586`). -/
def qualityMultiplier (g : String) : ℚ :=
  if g = "excellent" then 1
  else if g = "good" then 95/100
  else if g = "fair" then 85/100
  else 7/10

/-- The body of `calculate_tonnage_method`'s per-sample loop
(`calculations.py:594-611`). -/
def tonnageSampleStep (mf qf : ℚ) (s : TonnageSample) :
    Except CalcError (TonnageSampleDetail × ℚ) := do
  let fresh := s.fresh_weight_lbs.getD 0
  let area := s.sample_area_acres.getD (1/1000)
  let raw ← pydiv (fresh / 2000) area
  let adj := raw * mf * qf
  pure (⟨s.sample_number, fresh, roundTo 1 raw, roundTo 1 adj⟩, adj)

/-- `CalculationService.calculate_tonnage_method`
(`calculations.py:551-624`).  Seeds Exhibit 21 first (line 568), so the
updated store is returned alongside the result. -/
def calculate_tonnage_method (store : LookupStore)
    (samples : List TonnageSample) (moisture_pct : ℚ)
    (visual_damage_pct : ℚ := 0) (quality_grade : Option String := none) :
    Except CalcError (TonnageResult × LookupStore) := do
  let store1 := seed_exhibit_21 store
  let final_grade := tonnageFinalGrade quality_grade
    (tonnageAutoGrade moisture_pct visual_damage_pct)
  let qf := qualityMultiplier final_grade
  let mf := match get_lookup_value store1 "exhibit21_silageMoisture"
      moisture_pct (some "factor") with
    | .ok v => v
    | .error _ => 1
  let pairs ← samples.mapM (tonnageSampleStep mf qf)
  let total := (pairs.map Prod.snd).sum
  let avg := if samples = [] then 0 else total / (samples.length : ℚ)
  pure (⟨"tonnage", roundTo 1 avg,
         (if qf = 0 then 0 else roundTo 1 (avg / qf)), final_grade, qf,
         decide (5 < avg),
         (match quality_grade with
          | some g => if g = "" then 7/10 else 85/100
          | none => 7/10),
         pairs.map Prod.fst⟩, store1)

/-! Store-growth lemmas for the seeding side effects (C6). -/

theorem seedRowsAux_table (t cond : String) :
    ∀ (i : ℕ) (rows : List (ℚ × ℚ)), ∀ e ∈ seedRowsAux t cond i rows,
      e.table_name = t := by
  intro i rows
  induction rows generalizing i with
  | nil => intro e he; cases he
  | cons r rest ih =>
    intro e he
    rcases r with ⟨x, y⟩
    rcases List.mem_cons.mp he with rfl | he'
    · rfl
    · exact ih (i + 1) e he'

theorem seedRowsAux_any (t cond : String) (i : ℕ) (x y : ℚ)
    (rows : List (ℚ × ℚ)) :
    (seedRowsAux t cond i ((x, y) :: rows)).any
      (fun e => e.table_name == t) = true := by
  apply List.any_eq_true.mpr
  exact ⟨⟨i, t, x, some cond, y⟩, List.mem_cons_self _ _, by simp⟩

theorem seed_exhibit_23_append (store : LookupStore) :
    ∃ extra, seed_exhibit_23 store = store ++ extra ∧
      ∀ e ∈ extra, e.table_name = "exhibit23_moistureAdjustment" := by
  unfold seed_exhibit_23
  split
  · exact ⟨[], by simp, fun e he => absurd he (List.not_mem_nil e)⟩
  · exact ⟨_, rfl, seedRowsAux_table _ _ _ _⟩

theorem seed_exhibit_24_append (store : LookupStore) :
    ∃ extra, seed_exhibit_24 store = store ++ extra ∧
      ∀ e ∈ extra, e.table_name = "exhibit24_testWeightPack" := by
  unfold seed_exhibit_24
  split
  · exact ⟨[], by simp, fun e he => absurd he (List.not_mem_nil e)⟩
  · exact ⟨_, rfl, seedRowsAux_table _ _ _ _⟩

theorem hailSeeds_append (store : LookupStore) :
    ∃ extra, seed_exhibit_24 (seed_exhibit_23 (seed_exhibit_17 store)) =
      store ++ extra ∧
      ∀ e ∈ extra, e.table_name = "exhibit23_moistureAdjustment" ∨
        e.table_name = "exhibit24_testWeightPack" := by
  obtain ⟨e23, h23, hn23⟩ := seed_exhibit_23_append store
  obtain ⟨e24, h24, hn24⟩ := seed_exhibit_24_append (store ++ e23)
  refine ⟨e23 ++ e24, ?_, ?_⟩
  · rw [seed_exhibit_17, h23, h24, List.append_assoc]
  · intro e he
    rcases List.mem_append.mp he with h | h
    · exact Or.inl (hn23 e h)
    · exact Or.inr (hn24 e h)

theorem seriesFilter_append_of_ne (store extra : LookupStore) (t : String)
    (cond : Option String) (h : ∀ e ∈ extra, e.table_name ≠ t) :
    seriesFilter (store ++ extra) t cond = seriesFilter store t cond := by
  simp only [seriesFilter, List.filter_append]
  have hnil : extra.filter (fun e => e.table_name == t && condMatch cond e) =
      [] := by
    rw [List.filter_eq_nil_iff]
    intro e he
    simp only [Bool.and_eq_true, beq_iff_eq, not_and]
    intro ht
    exact absurd ht (h e he)
  rw [hnil, List.append_nil]

theorem get_lookup_value_append_of_ne (store extra : LookupStore)
    (t : String) (x : ℚ) (cond : Option String)
    (h : ∀ e ∈ extra, e.table_name ≠ t) :
    get_lookup_value (store ++ extra) t x cond =
      get_lookup_value store t x cond := by
  unfold get_lookup_value exactMatches
  rw [seriesFilter_append_of_ne store extra t cond h]

theorem mapM_congr_of_forall {α β : Type} {f g : α → Except CalcError β} :
    ∀ (l : List α), (∀ a ∈ l, f a = g a) → l.mapM f = l.mapM g := by
  intro l
  induction l with
  | nil => intro _; rfl
  | cons a l ih =>
    intro h
    rw [List.mapM_cons, List.mapM_cons, h a (List.mem_cons_self a l),
      ih (fun b hb => h b (List.mem_cons_of_mem a hb))]

theorem hailStandTable_cases (growth_stage t : String)
    (h : hailStandTable growth_stage = some t) :
    t = "exhibit13_hailStandReduction" ∨
      t = "exhibit14_hailStandReduction" := by
  unfold hailStandTable at h
  split at h
  · cases h; exact Or.inl rfl
  · split at h
    · cases h; exact Or.inr rfl
    · cases h

/-- The hail per-sample step reads only the Exhibit 13/14/15 series, so
rows appended for other tables do not change it. -/
theorem hailSampleStep_append (store extra : LookupStore)
    (growth_stage : String) (s : HailSample)
    (h : ∀ e ∈ extra, e.table_name = "exhibit23_moistureAdjustment" ∨
      e.table_name = "exhibit24_testWeightPack") :
    hailSampleStep (store ++ extra) growth_stage s =
      hailSampleStep store growth_stage s := by
  have hstand : hailStandDamageE (store ++ extra) growth_stage s =
      hailStandDamageE store growth_stage s := by
    unfold hailStandDamageE
    rcases ht : hailStandTable growth_stage with _ | t
    · rfl
    · have hne : ∀ e ∈ extra, e.table_name ≠ t := by
        intro e he
        rcases hailStandTable_cases growth_stage t ht with rfl | rfl <;>
          rcases h e he with h' | h' <;> simp [h']
      have hlv := get_lookup_value_append_of_ne store extra t
        (hailPercentReduction s) (some growth_stage) hne
      unfold lookupValueOr
      simp only [ht, hlv]
  have hdefol : hailDefolDamageE (store ++ extra) growth_stage s =
      hailDefolDamageE store growth_stage s := by
    have hne : ∀ e ∈ extra, e.table_name ≠ "exhibit15_leafLoss" := by
      intro e he
      rcases h e he with h' | h' <;> simp [h']
    have hlv := get_lookup_value_append_of_ne store extra
      "exhibit15_leafLoss" (s.percent_defoliation.getD 0)
      (some growth_stage) hne
    unfold hailDefolDamageE lookupValueOr
    simp only [hlv]
  simp only [hailSampleStep, hstand, hdefol]

theorem seed_exhibit_23_noop (store : LookupStore)
    (h : store.any (fun e =>
      e.table_name == "exhibit23_moistureAdjustment") = true) :
    seed_exhibit_23 store = store := by
  unfold seed_exhibit_23
  rw [if_pos h]

theorem seed_exhibit_24_noop (store : LookupStore)
    (h : store.any (fun e =>
      e.table_name == "exhibit24_testWeightPack") = true) :
    seed_exhibit_24 store = store := by
  unfold seed_exhibit_24
  rw [if_pos h]

theorem seed_exhibit_23_any (store : LookupStore) :
    (seed_exhibit_23 store).any (fun e =>
      e.table_name == "exhibit23_moistureAdjustment") = true := by
  unfold seed_exhibit_23
  split
  · assumption
  · rw [seedRows, List.any_append, seedRowsAux_any, Bool.or_true]

theorem seed_exhibit_24_any (store : LookupStore) :
    (seed_exhibit_24 store).any (fun e =>
      e.table_name == "exhibit24_testWeightPack") = true := by
  unfold seed_exhibit_24
  split
  · assumption
  · rw [seedRows, List.any_append, seedRowsAux_any, Bool.or_true]

theorem seed_exhibit_21_any (store : LookupStore) :
    (seed_exhibit_21 store).any (fun e =>
      e.table_name == "exhibit21_silageMoisture") = true := by
  unfold seed_exhibit_21
  split
  · assumption
  · rw [seedRows, List.any_append, seedRowsAux_any, Bool.or_true]

theorem seed_exhibit_21_noop (store : LookupStore)
    (h : store.any (fun e =>
      e.table_name == "exhibit21_silageMoisture") = true) :
    seed_exhibit_21 store = store := by
  unfold seed_exhibit_21
  rw [if_pos h]

theorem seed_exhibit_21_idem (store : LookupStore) :
    seed_exhibit_21 (seed_exhibit_21 store) = seed_exhibit_21 store :=
  seed_exhibit_21_noop _ (seed_exhibit_21_any store)

theorem any_append_left {l l' : List LookupEntry}
    {p : LookupEntry → Bool} (h : l.any p = true) :
    (l ++ l').any p = true := by
  rw [List.any_append, h, Bool.true_or]

/-- The composite hail seeding is idempotent. -/
theorem hailSeeds_idem (store : LookupStore) :
    seed_exhibit_24 (seed_exhibit_23 (seed_exhibit_17
      (seed_exhibit_24 (seed_exhibit_23 (seed_exhibit_17 store))))) =
    seed_exhibit_24 (seed_exhibit_23 (seed_exhibit_17 store)) := by
  simp only [seed_exhibit_17]
  obtain ⟨e24, h24, -⟩ := seed_exhibit_24_append (seed_exhibit_23 store)
  have h23b : seed_exhibit_23 (seed_exhibit_24 (seed_exhibit_23 store)) =
      seed_exhibit_24 (seed_exhibit_23 store) := by
    apply seed_exhibit_23_noop
    rw [h24]
    exact any_append_left (seed_exhibit_23_any store)
  rw [h23b]
  exact seed_exhibit_24_noop _ (seed_exhibit_24_any _)

/-- C6 counterexample: the tonnage calculator does *not* leave the
LookupStore unchanged — invoked against the empty store it returns the
store with the seeded Exhibit 21 rows appended (`seed_exhibit_21`,
called at `calculations.py:568`). -/
theorem C6_store_mutation_counterexample :
    ∃ r store2, calculate_tonnage_method [] [] 65 0 none =
      .ok (r, store2) ∧ store2 ≠ ([] : LookupStore) := by
  refine ⟨_, _, rfl, ?_⟩
  simp [seed_exhibit_21, seedRows, seedRowsAux, freshId]

/-- C6 amended. Re-invoking the hail or tonnage calculator on the store
left by a first successful run returns the identical result and leaves the
store unchanged (two-run numeric determinism); the mutation of the first
run is exactly the idempotent seeding of missing exhibit tables. -/
theorem C6_two_run_determinism (store : LookupStore)
    (hsamples : List HailSample) (tsamples : List TonnageSample)
    (growth_stage : String) (moisture_pct visual_damage_pct : ℚ)
    (quality_grade : Option String) :
    (∀ r store2,
      calculate_hail_damage store hsamples growth_stage = .ok (r, store2) →
      calculate_hail_damage store2 hsamples growth_stage =
        .ok (r, store2)) ∧
    (∀ r store2,
      calculate_tonnage_method store tsamples moisture_pct
        visual_damage_pct quality_grade = .ok (r, store2) →
      calculate_tonnage_method store2 tsamples moisture_pct
        visual_damage_pct quality_grade = .ok (r, store2)) := by
  constructor
  · intro r store2 h
    obtain ⟨extra, hsp, hnames⟩ := hailSeeds_append store
    simp only [calculate_hail_damage] at h
    rcases hm : hsamples.mapM (hailSampleStep store growth_stage) with
        e | pairs <;> rw [hm] at h
    · simp only [error_bind] at h
      exact absurd h (by simp)
    · simp only [ok_bind] at h
      injection h with hpair
      cases hpair
      simp only [calculate_hail_damage]
      have hmap2 : hsamples.mapM (hailSampleStep
          (seed_exhibit_24 (seed_exhibit_23 (seed_exhibit_17 store)))
          growth_stage) = .ok pairs := by
        rw [hsp, mapM_congr_of_forall hsamples
          (fun a _ => hailSampleStep_append store extra growth_stage a
            hnames)]
        exact hm
      rw [hmap2]
      simp only [ok_bind]
      rw [hailSeeds_idem]
      rfl
  · intro r store2 h
    simp only [calculate_tonnage_method] at h
    rcases hm : tsamples.mapM (tonnageSampleStep
        (match get_lookup_value (seed_exhibit_21 store)
            "exhibit21_silageMoisture" moisture_pct (some "factor") with
          | .ok v => v
          | .error _ => 1)
        (qualityMultiplier (tonnageFinalGrade quality_grade
          (tonnageAutoGrade moisture_pct visual_damage_pct)))) with
        e | pairs <;> rw [hm] at h
    · simp only [error_bind] at h
      exact absurd h (by simp)
    · simp only [ok_bind] at h
      injection h with hpair
      cases hpair
      simp only [calculate_tonnage_method, seed_exhibit_21_idem]
      rw [hm]
      simp only [ok_bind]
      rfl

/-- Witness for C6 (amended): re-running the hail calculator on the store
left by a first run over the empty store reproduces the result exactly. -/
theorem C6_two_run_determinism_witness :
    calculate_hail_damage
      (seed_exhibit_24 (seed_exhibit_23 (seed_exhibit_17 []))) [] "VT" =
      .ok (⟨"hail_damage", "VT", 0, 100, ⟨0, 0, 0, 0, 0, 0⟩, []⟩,
        seed_exhibit_24 (seed_exhibit_23 (seed_exhibit_17 []))) := by
  have hrun1 : calculate_hail_damage [] [] "VT" =
      .ok (⟨"hail_damage", "VT", 0, 100, ⟨0, 0, 0, 0, 0, 0⟩, []⟩,
        seed_exhibit_24 (seed_exhibit_23 (seed_exhibit_17 []))) := by
    simp only [calculate_hail_damage, List.mapM_nil]
    norm_num [roundTo, roundHalfEven]
    rfl
  exact (C6_two_run_determinism [] [] [] "VT" 65 0 none).1 _ _ hrun1

/-! ## Validation engine
(`ValidationEngine.validate_statistical_consistency`,
`backend/app/services/validation.py:12-83`).

Sample details are passed to the validator as dicts; they are modelled as
string-keyed association lists of rationals (`KV`).  The source compares
`cv = sqrt(variance)/mean` and `z = |x-mean|/sqrt(variance)` against
thresholds; the embedding states the same real-number comparisons in
squared, rational-decidable form, and `C7_statistical_validator` proves
the equivalence with the `Real.sqrt` formulations. -/

abbrev KV := List (String × ℚ)

/-- `dict.get(key)`. -/
def kvGet (kv : KV) (k : String) : Option ℚ :=
  (kv.find? (fun p => p.1 == k)).map (·.2)

/-- The message of a flag, keeping the data the format strings carry
exactly (the irrational `cv`/`z` payloads are elided). -/
inductive FlagMessage where
  | suspiciouslyUniform
  | highVariance
  | outlier (sampleIndex : ℕ) (value : ℚ)
  deriving Repr, DecidableEq

/-- `ValidationFlag` (`backend/app/schemas/intelligence.py:67-71`). -/
structure ValidationFlag where
  check_type : String
  status : String
  message : FlagMessage
  confidence_score : ℚ
  deriving Repr, DecidableEq

/-- The method-specific field read by the statistical check
(`validation.py:24-31`): note `yield_kg_ha_adj` for the weight method. -/
def statKey (method : String) : String :=
  if method = "WEIGHT_METHOD" then "yield_kg_ha_adj"
  else if method = "HAIL_DAMAGE" then "total_sample_loss"
  else ""

/-- `[s.get(key, 0.0) for s in samples if key in s]`. -/
def statValues (method : String) (samples : List KV) : List ℚ :=
  samples.filterMap (fun s => kvGet s (statKey method))

def statMean (vs : List ℚ) : ℚ := vs.sum / (vs.length : ℚ)

def statVariance (vs : List ℚ) : ℚ :=
  (vs.map (fun x => (x - statMean vs) ^ 2)).sum / (vs.length : ℚ)

/-- `ValidationEngine.validate_statistical_consistency`
(`validation.py:12-83`).  `cv < 0.05`, `cv > 0.40` and `z > 2.5` are the
source's float comparisons written in exact squared form
(`cv = sqrt(variance)/mean`, `z = |x-mean|/sqrt(variance)`). -/
def validate_statistical_consistency (method : String)
    (samples : List KV) : List ValidationFlag :=
  if samples.length < 3 then []
  else
    let values := statValues method samples
    if values = [] then []
    else
      let mean := statMean values
      if mean = 0 then []
      else
        let variance := statVariance values
        (if (mean < 0 ∨ variance < (mean / 20) ^ 2) ∧
            5 < samples.length then
          [⟨"statistical", "WARNING", .suspiciouslyUniform, 3/4⟩] else []) ++
        (if 0 ≤ mean ∧ (2 * mean / 5) ^ 2 < variance then
          [⟨"statistical", "WARNING", .highVariance, 3/5⟩] else []) ++
        values.enum.filterMap (fun p =>
          if 0 < variance ∧ (5/2) ^ 2 * variance < (p.2 - mean) ^ 2 then
            some ⟨"outlier", "FAIL", .outlier (p.1 + 1) p.2, 9/10⟩
          else none)

/-- The numeric keys of a weight-method `sample_details` dict
(`calculations.py:442-456`); `yield_kg_ha_adj` is not among them. -/
def weightDetailKV (d : WeightSampleDetail) : KV :=
  [("raw_weight_lbs", d.raw_weight_lbs),
   ("shelled_weight_lbs", d.shelled_weight_lbs),
   ("yield_bu_acre_raw", d.yield_bu_acre_raw),
   ("yield_bu_acre_adj", d.yield_bu_acre_adj)]

/-- The numeric keys of a hail-damage `sample_details` dict
(`calculations.py:317-329`). -/
def hailDetailKV (d : HailSampleDetail) : KV :=
  [("percent_stand_reduction_input", d.percent_stand_reduction_input),
   ("stand_damage_pct", d.stand_damage_pct),
   ("defoliation_input_pct", d.defoliation_input_pct),
   ("defoliation_damage_pct", d.defoliation_damage_pct),
   ("stalk_damage_pct", d.stalk_damage_pct),
   ("growing_point_damage_pct", d.growing_point_damage_pct),
   ("ear_damage_pct", d.ear_damage_pct),
   ("direct_damage_other_pct", d.direct_damage_other_pct),
   ("total_direct_damage", d.total_direct_damage),
   ("total_sample_loss", d.total_sample_loss)]

/-- The real weight-method breakdown never carries the key the validator
reads, so weight-method breakdowns produce no statistical flags. -/
theorem weight_details_no_stat_flags (wdetails : List WeightSampleDetail) :
    validate_statistical_consistency "WEIGHT_METHOD"
      (wdetails.map weightDetailKV) = [] := by
  have hvals : statValues "WEIGHT_METHOD" (wdetails.map weightDetailKV) =
      [] := by
    unfold statValues
    rw [List.filterMap_map, List.filterMap_eq_nil_iff]
    intro d _
    have h1 : (("raw_weight_lbs" : String) == "yield_kg_ha_adj") =
      false := by decide
    have h2 : (("shelled_weight_lbs" : String) == "yield_kg_ha_adj") =
      false := by decide
    have h3 : (("yield_bu_acre_raw" : String) == "yield_kg_ha_adj") =
      false := by decide
    have h4 : (("yield_bu_acre_adj" : String) == "yield_kg_ha_adj") =
      false := by decide
    simp only [Function.comp, kvGet, weightDetailKV, statKey,
      List.find?, if_pos, reduceIte, h1, h2, h3, h4]
    rfl
  by_cases hlen : (wdetails.map weightDetailKV).length < 3
  · unfold validate_statistical_consistency
    rw [if_pos hlen]
  · unfold validate_statistical_consistency
    rw [if_neg hlen]
    simp only [hvals]
    rfl

theorem statMean_nil : statMean [] = 0 := by
  simp [statMean]

theorem statVariance_nonneg (vs : List ℚ) : 0 ≤ statVariance vs := by
  unfold statVariance
  apply div_nonneg
  · apply List.sum_nonneg
    intro x hx
    obtain ⟨a, -, rfl⟩ := List.mem_map.mp hx
    positivity
  · positivity

theorem mem_single_ite_iff (c : Prop) [Decidable c] (f : ValidationFlag) :
    f ∈ (if c then [f] else []) ↔ c := by
  split <;> simp [*]

/-- C7 (amended). The statistical validator on a hail-damage breakdown
with ≥ 3 samples and positive mean: the "suspiciously uniform" WARNING is
emitted exactly when CV = stddev/mean < 0.05 with more than 5 samples,
the "high variance" WARNING exactly when CV > 0.40, and a per-sample FAIL
naming index i+1 exactly when that sample's Z-score exceeds 2.5; fewer
than 3 samples yield no flags; and weight-method breakdowns never yield
statistical flags, because the validator reads the key `yield_kg_ha_adj`
which the weight calculator's details do not carry. -/
theorem C7_statistical_validator (details : List KV)
    (hn : 3 ≤ details.length)
    (hmean : 0 < statMean (statValues "HAIL_DAMAGE" details)) :
    (∀ (method : String) (l : List KV), l.length < 3 →
      validate_statistical_consistency method l = []) ∧
    ((⟨"statistical", "WARNING", .suspiciouslyUniform, 3/4⟩ ∈
        validate_statistical_consistency "HAIL_DAMAGE" details) ↔
      (Real.sqrt ((statVariance (statValues "HAIL_DAMAGE" details) : ℚ) :
            ℝ) /
          ((statMean (statValues "HAIL_DAMAGE" details) : ℚ) : ℝ) < 1/20 ∧
        5 < details.length)) ∧
    ((⟨"statistical", "WARNING", .highVariance, 3/5⟩ ∈
        validate_statistical_consistency "HAIL_DAMAGE" details) ↔
      (2/5 : ℝ) <
        Real.sqrt ((statVariance (statValues "HAIL_DAMAGE" details) : ℚ) :
            ℝ) /
          ((statMean (statValues "HAIL_DAMAGE" details) : ℚ) : ℝ)) ∧
    (∀ (i : ℕ) (hi : i < (statValues "HAIL_DAMAGE" details).length),
      ((⟨"outlier", "FAIL",
          .outlier (i + 1) ((statValues "HAIL_DAMAGE" details).get ⟨i, hi⟩),
          9/10⟩ ∈ validate_statistical_consistency "HAIL_DAMAGE" details) ↔
        (0 < Real.sqrt ((statVariance (statValues "HAIL_DAMAGE" details) :
              ℚ) : ℝ) ∧
         (5/2 : ℝ) <
           |(((statValues "HAIL_DAMAGE" details).get ⟨i, hi⟩ : ℚ) : ℝ) -
             ((statMean (statValues "HAIL_DAMAGE" details) : ℚ) : ℝ)| /
           Real.sqrt ((statVariance (statValues "HAIL_DAMAGE" details) :
             ℚ) : ℝ)))) ∧
    (∀ wdetails : List WeightSampleDetail,
      validate_statistical_consistency "WEIGHT_METHOD"
        (wdetails.map weightDetailKV) = []) := by
  have hshort : ∀ (method : String) (l : List KV), l.length < 3 →
      validate_statistical_consistency method l = [] := by
    intro method l hl
    unfold validate_statistical_consistency
    rw [if_pos hl]
  set vs := statValues "HAIL_DAMAGE" details with hvsdef
  set m := statMean vs with hmdef
  set v := statVariance vs with hvdef
  have hvsne : vs ≠ [] := by
    intro h
    rw [hmdef, h, statMean_nil] at hmean
    exact absurd hmean (lt_irrefl 0)
  have hm0 : m ≠ 0 := ne_of_gt hmean
  have hmpos : (0 : ℝ) < (m : ℝ) := by exact_mod_cast hmean
  have hv0 : 0 ≤ v := hvdef ▸ statVariance_nonneg vs
  have hv0r : (0 : ℝ) ≤ (v : ℝ) := by exact_mod_cast hv0
  have hunfold : validate_statistical_consistency "HAIL_DAMAGE" details =
      (if (m < 0 ∨ v < (m / 20) ^ 2) ∧ 5 < details.length then
        [⟨"statistical", "WARNING", .suspiciouslyUniform, 3/4⟩] else []) ++
      (if 0 ≤ m ∧ (2 * m / 5) ^ 2 < v then
        [⟨"statistical", "WARNING", .highVariance, 3/5⟩] else []) ++
      vs.enum.filterMap (fun p =>
        if 0 < v ∧ (5/2) ^ 2 * v < (p.2 - m) ^ 2 then
          some ⟨"outlier", "FAIL", .outlier (p.1 + 1) p.2, 9/10⟩
        else none) := by
    simp only [validate_statistical_consistency]
    rw [← hvsdef, if_neg (not_lt.mpr hn), if_neg hvsne, ← hmdef,
      if_neg hm0, ← hvdef]
  have hcv1 : v < (m / 20) ^ 2 ↔
      Real.sqrt (v : ℝ) / (m : ℝ) < 1/20 := by
    rw [div_lt_iff hmpos]
    have h20 : (0 : ℝ) < 1/20 * (m : ℝ) := by positivity
    rw [Real.sqrt_lt' h20]
    rw [show (1/20 * ((m : ℚ) : ℝ)) ^ 2 = (((m / 20) ^ 2 : ℚ) : ℝ) by
      push_cast; ring]
    rw [Rat.cast_lt]
  have hcv2 : (2 * m / 5) ^ 2 < v ↔
      (2/5 : ℝ) < Real.sqrt (v : ℝ) / (m : ℝ) := by
    rw [lt_div_iff hmpos]
    have h25 : (0 : ℝ) ≤ 2/5 * (m : ℝ) := by positivity
    rw [Real.lt_sqrt h25]
    rw [show (2/5 * ((m : ℚ) : ℝ)) ^ 2 = (((2 * m / 5) ^ 2 : ℚ) : ℝ) by
      push_cast; ring]
    rw [Rat.cast_lt]
  have hz : ∀ x : ℚ, (0 < v ∧ (5/2) ^ 2 * v < (x - m) ^ 2) ↔
      (0 < Real.sqrt (v : ℝ) ∧
        (5/2 : ℝ) < |(x : ℝ) - (m : ℝ)| / Real.sqrt (v : ℝ)) := by
    intro x
    constructor
    · rintro ⟨hv, hlt⟩
      have hvr : (0 : ℝ) < (v : ℝ) := by exact_mod_cast hv
      have hs : 0 < Real.sqrt (v : ℝ) := Real.sqrt_pos.mpr hvr
      refine ⟨hs, ?_⟩
      rw [lt_div_iff hs]
      have hlt' : ((5/2 : ℝ)) ^ 2 * (v : ℝ) <
          ((x : ℝ) - (m : ℝ)) ^ 2 := by
        rw [show ((5/2 : ℝ)) ^ 2 * ((v : ℚ) : ℝ) =
            (((5/2) ^ 2 * v : ℚ) : ℝ) by push_cast; ring,
          show (((x : ℚ) : ℝ) - ((m : ℚ) : ℝ)) ^ 2 =
            (((x - m) ^ 2 : ℚ) : ℝ) by push_cast; ring,
          Rat.cast_lt]
        exact hlt
      apply lt_of_pow_lt_pow_left 2 (abs_nonneg _)
      rw [sq_abs, mul_pow, Real.sq_sqrt hvr.le]
      exact hlt'
    · rintro ⟨hs, hlt⟩
      have hvr : (0 : ℝ) < (v : ℝ) := Real.sqrt_pos.mp hs
      have hv2 : 0 < v := by exact_mod_cast hvr
      refine ⟨hv2, ?_⟩
      rw [lt_div_iff hs] at hlt
      have h2 : ((5/2 : ℝ) * Real.sqrt (v : ℝ)) ^ 2 <
          |(x : ℝ) - (m : ℝ)| ^ 2 :=
        pow_lt_pow_left hlt (by positivity) (by norm_num)
      rw [sq_abs, mul_pow, Real.sq_sqrt hvr.le] at h2
      rw [show ((5/2 : ℝ)) ^ 2 * ((v : ℚ) : ℝ) =
          (((5/2) ^ 2 * v : ℚ) : ℝ) by push_cast; ring,
        show (((x : ℚ) : ℝ) - ((m : ℚ) : ℝ)) ^ 2 =
          (((x - m) ^ 2 : ℚ) : ℝ) by push_cast; ring,
        Rat.cast_lt] at h2
      exact h2
  have hnotin_hv : (⟨"statistical", "WARNING", .suspiciouslyUniform, 3/4⟩ :
      ValidationFlag) ∉
      (if 0 ≤ m ∧ (2 * m / 5) ^ 2 < v then
        [⟨"statistical", "WARNING", .highVariance, 3/5⟩] else []) := by
    split <;> simp
  have hnotin_o : ∀ (f : ValidationFlag), f.check_type = "statistical" →
      f ∉ vs.enum.filterMap (fun p =>
        if 0 < v ∧ (5/2) ^ 2 * v < (p.2 - m) ^ 2 then
          some ⟨"outlier", "FAIL", .outlier (p.1 + 1) p.2, 9/10⟩
        else none) := by
    intro f hf hmem
    obtain ⟨p, -, hp⟩ := List.mem_filterMap.mp hmem
    split at hp
    · cases hp
      simp at hf
    · cases hp
  have hnotin_u : (⟨"statistical", "WARNING", .highVariance, 3/5⟩ :
      ValidationFlag) ∉
      (if (m < 0 ∨ v < (m / 20) ^ 2) ∧ 5 < details.length then
        [⟨"statistical", "WARNING", .suspiciouslyUniform, 3/4⟩] else []) := by
    split <;> simp
  refine ⟨hshort, ?_, ?_, ?_, weight_details_no_stat_flags⟩
  · rw [hunfold, List.mem_append, List.mem_append]
    rw [mem_single_ite_iff]
    have h1 : (⟨"statistical", "WARNING", .suspiciouslyUniform, 3/4⟩ :
        ValidationFlag) ∉ (if 0 ≤ m ∧ (2 * m / 5) ^ 2 < v then
          [⟨"statistical", "WARNING", .highVariance, 3/5⟩] else []) :=
      hnotin_hv
    have h2 := hnotin_o ⟨"statistical", "WARNING", .suspiciouslyUniform,
      3/4⟩ rfl
    simp only [h1, h2, or_false]
    rw [or_iff_right (not_lt.mpr hmean.le)]
    rw [hcv1]
  · rw [hunfold, List.mem_append, List.mem_append]
    rw [mem_single_ite_iff]
    have h2 := hnotin_o ⟨"statistical", "WARNING", .highVariance, 3/5⟩ rfl
    simp only [hnotin_u, h2, or_false, false_or]
    rw [and_iff_right hmean.le]
    rw [hcv2]
  · intro i hi
    rw [hunfold, List.mem_append, List.mem_append]
    have h1 : (⟨"outlier", "FAIL",
        .outlier (i + 1) (vs.get ⟨i, hi⟩), 9/10⟩ : ValidationFlag) ∉
        (if (m < 0 ∨ v < (m / 20) ^ 2) ∧ 5 < details.length then
          [⟨"statistical", "WARNING", .suspiciouslyUniform, 3/4⟩]
        else []) := by
      split <;> simp
    have h2 : (⟨"outlier", "FAIL",
        .outlier (i + 1) (vs.get ⟨i, hi⟩), 9/10⟩ : ValidationFlag) ∉
        (if 0 ≤ m ∧ (2 * m / 5) ^ 2 < v then
          [⟨"statistical", "WARNING", .highVariance, 3/5⟩] else []) := by
      split <;> simp
    simp only [h1, h2, false_or]
    rw [← hz (vs.get ⟨i, hi⟩)]
    constructor
    · intro h
      obtain ⟨⟨j, x⟩, hjm, hjx⟩ := List.mem_filterMap.mp h
      by_cases hc : 0 < v ∧ (5/2) ^ 2 * v < (x - m) ^ 2
      · rw [if_pos hc] at hjx
        injection hjx with hrec
        injection hrec with hct hst hmsg hcs
        injection hmsg with hidx hval
        have hj : j = i := Nat.succ_injective hidx
        subst hj
        subst hval
        exact hc
      · rw [if_neg hc] at hjx
        cases hjx
    · intro hc
      apply List.mem_filterMap.mpr
      refine ⟨(i, vs.get ⟨i, hi⟩), ?_, ?_⟩
      · rw [List.mk_mem_enum_iff_getElem?]
        simp [List.getElem?_eq_getElem, hi, List.get_eq_getElem]
      · rw [if_pos hc]

/-- Six identical hail sample-detail dicts. -/
def uniformHailDetails : List KV :=
  List.replicate 6 [("total_sample_loss", (10 : ℚ))]

theorem uniformHailDetails_values :
    statValues "HAIL_DAMAGE" uniformHailDetails = List.replicate 6 10 := by
  simp [uniformHailDetails, statValues, statKey, kvGet, List.find?,
    List.replicate, List.filterMap_cons]

/-- Witness for C7: six identical hail losses (variance 0, CV 0) trigger
the "suspiciously uniform" WARNING. -/
theorem C7_statistical_validator_witness :
    (⟨"statistical", "WARNING", .suspiciouslyUniform, 3/4⟩ :
      ValidationFlag) ∈
      validate_statistical_consistency "HAIL_DAMAGE" uniformHailDetails := by
  have hmean : statMean (statValues "HAIL_DAMAGE" uniformHailDetails) =
      10 := by
    rw [uniformHailDetails_values]
    norm_num [statMean, List.replicate]
  have hvar : statVariance (statValues "HAIL_DAMAGE" uniformHailDetails) =
      0 := by
    rw [uniformHailDetails_values]
    rw [statVariance]
    norm_num [statMean, List.replicate]
  apply ((C7_statistical_validator uniformHailDetails
    (by norm_num [uniformHailDetails, List.replicate])
    (by rw [hmean]; norm_num)).2.1).mpr
  constructor
  · rw [hvar, hmean]
    norm_num [Real.sqrt_zero]
  · norm_num [uniformHailDetails, List.replicate]

/-- C7 counterexample: six *identical* weight-method samples run through
the real weight calculator produce a breakdown on which the statistical
validator emits *no* flags at all — the "suspiciously uniform" WARNING the
claim promises never appears, because the validator reads the key
`yield_kg_ha_adj` while the calculator emits `yield_bu_acre_adj`. -/
theorem C7_weight_uniform_counterexample :
    ∃ r, calculate_weight_method []
        (List.replicate 6 ⟨some 1, some 56, none, none, none, none, none⟩)
        (76/100) none none = .ok r ∧
      r.sample_details.length = 6 ∧
      validate_statistical_consistency "WEIGHT_METHOD"
        (r.sample_details.map weightDetailKV) = [] := by
  have hstep : ∀ s ∈ (List.replicate 6
      (⟨some 1, some 56, none, none, none, none, none⟩ : WeightSample)),
      weightSampleStep (weightMoistureFactor [] none)
        (weightTestWeightFactor [] none) s = .ok
      (⟨s.sample_number, s.weight_lbs.getD 0,
        roundTo 1 (s.weight_lbs.getD 0 * (4/5)),
        roundTo 1 (s.weight_lbs.getD 0 * (4/5) / 56 /
          s.sample_area_acres.getD (1/100)),
        ⟨weightMoistureFactor [] none, weightTestWeightFactor [] none,
         roundTo 1 (s.foreign_material_pct.getD 0 / 100 * 100),
         roundTo 1 (s.damaged_kernels_pct.getD 0 / 100 * 100),
         roundTo 1 (s.broken_kernels_pct.getD 0 / 100 * 100),
         roundTo 1 (s.heat_damage_pct.getD 0 / 100 * 100)⟩,
        roundTo 1 (weightClaimYield [] none none s)⟩,
       weightClaimYield [] none none s) := by
    intro s hs
    rw [List.eq_of_mem_replicate hs]
    exact weightSampleStep_ok _ _ _ (by norm_num)
  have hmap := mapM_ok_of_forall _ hstep
  simp only [calculate_weight_method]
  rw [hmap]
  simp only [ok_bind]
  refine ⟨_, rfl, ?_, weight_details_no_stat_flags _⟩
  simp

/-! ### Orchestrator (`orchestrator.py`, `schemas/intelligence.py`) — claim C9

`perform_comprehensive_assessment` is modelled exception-faithfully.  Two
call-site facts from the source drive the model:

* the `WEIGHT_METHOD` branch (`orchestrator.py:50-56`) calls
  `calculate_weight_method(db, sample_dicts, moisture_pct=…,
  test_weight_kg_hl=…)`, but the callee's keyword parameter is named
  `test_weight` (`calculations.py:368`), so Python raises
  `TypeError: calculate_weight_method() got an unexpected keyword argument
  'test_weight_kg_hl'` before the calculator runs;
* every branch that survives its calculator call reaches
  `request.field_area_ha` (`orchestrator.py:94`); the request schema
  (`schemas/intelligence.py:52-65`) has `field_context.field_size_ha` but no
  `field_area_ha` attribute, so that line raises `AttributeError`. -/

/-- `PerilType` (`schemas/intelligence.py:9-15`). -/
inductive PerilType where
  | hail | drought | wind | disease | frost | flood
  deriving Repr, DecidableEq

/-- `GrowthStage` (`schemas/intelligence.py:17-29`). -/
inductive GrowthStage where
  | emergence | ve_v2 | v3_v5 | v6_v8 | v9_v12 | vt
  | r1 | r2 | r3 | r4 | r5 | mature
  deriving Repr, DecidableEq

/-- The `.value` string of each `GrowthStage` member
(`schemas/intelligence.py:17-29`). -/
def GrowthStage.value : GrowthStage → String
  | .emergence => "Emergence"
  | .ve_v2 => "VE-V2"
  | .v3_v5 => "V3-V5"
  | .v6_v8 => "V6-V8"
  | .v9_v12 => "V9-V12"
  | .vt => "VT"
  | .r1 => "R1"
  | .r2 => "R2"
  | .r3 => "R3"
  | .r4 => "R4"
  | .r5 => "R5"
  | .mature => "Mature"

/-- `MarketData` (`schemas/intelligence.py:31-36`). -/
structure MarketData where
  grain_price_per_tonne : ℚ
  silage_price_per_tonne : Option ℚ
  harvest_cost_per_ha : Option ℚ
  transport_cost_per_tonne : Option ℚ
  drying_cost_per_tonne : Option ℚ
  deriving Repr, DecidableEq

/-- `FieldContext` (`schemas/intelligence.py:38-42`); the date field is
dropped (never read by the orchestrator). -/
structure FieldContext where
  field_size_ha : ℚ
  crop_variety : Option String
  expected_yield_kg_ha : Option ℚ
  deriving Repr, DecidableEq

/-- `AssessmentSampleInput` (`schemas/intelligence.py:44-50`); the flexible
`Dict[str, …]` payloads become association lists. -/
structure AssessmentSampleInput where
  sample_number : ℤ
  counts : Option (List (String × ℤ))
  weights : Option (List (String × ℚ))
  damages : Option (List (String × ℚ))
  deriving Repr, DecidableEq

/-- `ComprehensiveAssessmentRequest` (`schemas/intelligence.py:52-65`);
`measurement_date` is dropped (never read by the orchestrator).  This model
deliberately has **no** `field_area_ha` field, matching the schema. -/
structure ComprehensiveAssessmentRequest where
  primary_peril : PerilType
  secondary_perils : List PerilType
  growth_stage : GrowthStage
  field_context : FieldContext
  market_data : Option MarketData
  samples : List AssessmentSampleInput
  moisture_pct : Option ℚ
  test_weight_kg_hl : Option ℚ
  deriving Repr, DecidableEq

/-- Python `(d or {}).get(key, default)` on an optional int dict
(`orchestrator.py:147-158`). -/
def dictGetZ (d : Option (List (String × ℤ))) (k : String) (dflt : ℤ) : ℤ :=
  match (d.getD []).find? (fun p => p.1 == k) with
  | some p => p.2
  | none => dflt

/-- Python `(d or {}).get(key, default)` on an optional float dict
(`orchestrator.py:147-164`). -/
def dictGetQ (d : Option (List (String × ℚ))) (k : String) (dflt : ℚ) : ℚ :=
  match (d.getD []).find? (fun p => p.1 == k) with
  | some p => p.2
  | none => dflt

/-- `AssessmentOrchestrator._determine_primary_method`
(`orchestrator.py:112-138`). -/
def determine_primary_method (peril : PerilType) (stage : GrowthStage) : String :=
  if stage ∈ [GrowthStage.emergence, .ve_v2, .v3_v5, .v6_v8] then
    if peril = .hail then "HAIL_DAMAGE" else "STAND_REDUCTION"
  else if stage ∈ [GrowthStage.v9_v12, .vt, .r1] ∧ peril = .hail then
    "HAIL_DAMAGE"
  else if stage ∈ [GrowthStage.r4, .r5, .mature] then
    "WEIGHT_METHOD"
  else
    "STAND_REDUCTION"

/-- `_map_samples(samples, "STAND_REDUCTION")` (`orchestrator.py:141-153`):
`surviving_plants` from `counts` (default 0), `length_measured_m = 10.0`,
no `row_width_m` key. -/
def map_samples_stand (samples : List AssessmentSampleInput) : List StandSample :=
  samples.map (fun s =>
    { sample_number := some s.sample_number
      length_measured_m := some 10
      row_width_m := none
      surviving_plants := some (dictGetZ s.counts "surviving_plants" 0) })

/-- `_map_samples(samples, "HAIL_DAMAGE")` (`orchestrator.py:141-159`):
`original_stand_count` from `counts` (default 40), `destroyed_plants`
(default 0), `percent_defoliation` from `damages` (default 0.0),
`stalk_damage_severity = "none"`, and no other keys. -/
def map_samples_hail (samples : List AssessmentSampleInput) : List HailSample :=
  samples.map (fun s =>
    { sample_number := some s.sample_number
      length_measured_m := none
      row_width_m := none
      original_stand_count := some (dictGetZ s.counts "original_stand" 40)
      destroyed_plants := some (dictGetZ s.counts "destroyed" 0)
      percent_defoliation := some (dictGetQ s.damages "defoliation" 0)
      stalk_damage_severity := some "none"
      growing_point_damage_pct := none
      ear_damage_pct := none
      direct_damage_pct := none })

/-- The Python exceptions that can escape `perform_comprehensive_assessment`. -/
inductive OrchError where
  | typeError
  | attributeError
  | calcErr (e : CalcError)
  deriving Repr, DecidableEq

/-- `ComprehensiveAssessmentResult` as the orchestrator would build it at
`orchestrator.py:101-109` (the dynamic `assessment_id` and the
`detailed_breakdown`/`economic_recommendation` payloads are dropped: no
path ever reaches the constructor). -/
structure ComprehensiveAssessmentResult where
  primary_method_used : String
  calculated_loss_pct : ℚ
  calculated_yield_kg_ha : ℚ
  validation_flags : List ValidationFlag

/-- `AssessmentOrchestrator.perform_comprehensive_assessment`
(`orchestrator.py:19-109`).  The dispatch and the calculator calls are
faithful; after a successful calculator call the run reaches
`request.field_area_ha` (`orchestrator.py:94`) and dies with
`AttributeError` (the statistical flags computed at lines 88-90 are pure
and discarded by that exception, so they are not replayed here).  The
`WEIGHT_METHOD` branch dies earlier, with the `TypeError` from the
`test_weight_kg_hl` keyword (`orchestrator.py:50-56` vs
`calculations.py:368`).  `_determine_primary_method` never returns
`"TONNAGE_METHOD"`, so the final else (Python's fall-through with
`method_result = {}`, which also reaches line 94) is unreachable. -/
def perform_comprehensive_assessment (store : LookupStore)
    (request : ComprehensiveAssessmentRequest) :
    Except OrchError ComprehensiveAssessmentResult :=
  let primary_method :=
    determine_primary_method request.primary_peril request.growth_stage
  if primary_method = "STAND_REDUCTION" then
    match calculate_stand_reduction store (map_samples_stand request.samples)
        request.growth_stage.value with
    | .error e => .error (.calcErr e)
    | .ok _ => .error .attributeError
  else if primary_method = "HAIL_DAMAGE" then
    match calculate_hail_damage store (map_samples_hail request.samples)
        request.growth_stage.value with
    | .error e => .error (.calcErr e)
    | .ok _ => .error .attributeError
  else if primary_method = "WEIGHT_METHOD" then
    .error .typeError
  else
    .error .attributeError

/-- **C9** (code bug).  The orchestrator entry point is never total: for
every lookup store and every well-formed request,
`perform_comprehensive_assessment` raises a Python exception instead of
returning a composed result — and on the late reproductive/mature stages
(R4, R5, Mature), where the Weight Method is selected, the exception is
specifically the `TypeError` from the misspelled `test_weight_kg_hl`
keyword (`orchestrator.py:50-56` vs `calculations.py:368`); every other
path that survives its calculator dies on the nonexistent
`request.field_area_ha` (`orchestrator.py:94`).  This contradicts the
claim that a composed `MethodResult` is returned for every peril and
growth stage. -/
theorem C9_orchestrator_never_total (store : LookupStore)
    (request : ComprehensiveAssessmentRequest) :
    (∃ e, perform_comprehensive_assessment store request = .error e) ∧
    (request.growth_stage ∈ [GrowthStage.r4, GrowthStage.r5, GrowthStage.mature] →
      perform_comprehensive_assessment store request = .error .typeError) := by
  constructor
  · simp only [perform_comprehensive_assessment]
    by_cases h1 : determine_primary_method request.primary_peril
        request.growth_stage = "STAND_REDUCTION"
    · rw [if_pos h1]
      cases calculate_stand_reduction store (map_samples_stand request.samples)
          request.growth_stage.value with
      | error e => exact ⟨.calcErr e, rfl⟩
      | ok r => exact ⟨.attributeError, rfl⟩
    · rw [if_neg h1]
      by_cases h2 : determine_primary_method request.primary_peril
          request.growth_stage = "HAIL_DAMAGE"
      · rw [if_pos h2]
        cases calculate_hail_damage store (map_samples_hail request.samples)
            request.growth_stage.value with
        | error e => exact ⟨.calcErr e, rfl⟩
        | ok r => exact ⟨.attributeError, rfl⟩
      · rw [if_neg h2]
        by_cases h3 : determine_primary_method request.primary_peril
            request.growth_stage = "WEIGHT_METHOD"
        · rw [if_pos h3]
          exact ⟨.typeError, rfl⟩
        · rw [if_neg h3]
          exact ⟨.attributeError, rfl⟩
  · intro hst
    have hm : determine_primary_method request.primary_peril
        request.growth_stage = "WEIGHT_METHOD" := by
      simp only [List.mem_cons, List.not_mem_nil, or_false] at hst
      rcases hst with h | h | h <;> simp [determine_primary_method, h]
    simp only [perform_comprehensive_assessment, hm]
    simp

/-- A concrete well-formed late-season request: dent stage (R5), drought
peril, no samples. -/
def c9req : ComprehensiveAssessmentRequest :=
  { primary_peril := .drought
    secondary_perils := []
    growth_stage := .r5
    field_context := { field_size_ha := 10, crop_variety := none,
                       expected_yield_kg_ha := none }
    market_data := none
    samples := []
    moisture_pct := none
    test_weight_kg_hl := none }

/-- Witness for C9: on the concrete R5/drought request the orchestrator
raises the keyword-argument `TypeError`. -/
theorem C9_orchestrator_never_total_witness :
    perform_comprehensive_assessment [] c9req = .error .typeError :=
  (C9_orchestrator_never_total [] c9req).2 (by decide)

/-! ### Sampling-point generator (`spatial.py:68-187`) — claim C5

`SpatialService.generate_sampling_points` draws random candidates inside
the field's bounding box and filters them through two checks backed by
external components, which the embedding takes as parameters:

* `inside lat lng` — the PostGIS call
  `ST_Contains(ST_Buffer(polygon, -edge_buffer_degrees), ST_Point(lng, lat))`
  (`spatial.py:110-127`), i.e. membership in the boundary shrunk by
  `edge_buffer_meters`;
* `dist lat1 lng1 lat2 lng2` — `_calculate_distance`
  (`spatial.py:189-204`), the haversine distance in metres (transcendental,
  hence abstracted);
* `edgeDist lat lng` — the `ST_Distance` edge-distance query
  (`spatial.py:147-160`);
* `cand n` — the pair drawn by the two `random.uniform` calls on loop
  iteration `n` (`spatial.py:105-106`).

`attempts` increments on every loop iteration (accepted or rejected), so
iteration `n` consumes exactly candidate `n` and the `while` condition
`attempts < max_attempts` with `max_attempts = min_samples * 100`
(`spatial.py:100-103`) is a fuel of `min_samples * 100` iterations. -/

/-- One generated sampling point (`spatial.py:163-170`); the constant
`gps_accuracy_required`/`sampling_notes` strings are dropped. -/
structure SamplingPoint where
  sample_number : ℕ
  lat : ℚ
  lng : ℚ
  distance_from_edge_meters : ℚ
  deriving Repr, DecidableEq

/-- The external components of `generate_sampling_points` (PostGIS and the
haversine helper). -/
structure SamplerEnv where
  inside : ℚ → ℚ → Bool
  dist : ℚ → ℚ → ℚ → ℚ → ℚ
  edgeDist : ℚ → ℚ → ℚ

/-- `VerisSpatialError` as raised at `spatial.py:177-180`. -/
inductive SpatialError where
  | insufficientPoints (got need : ℕ)
  deriving Repr, DecidableEq

/-- The `while` loop of `generate_sampling_points` (`spatial.py:103-172`):
fuel counts the remaining iterations out of `max_attempts`; `attempts` is
the index of the candidate drawn this iteration.  A candidate is rejected
if it is outside the shrunk polygon or within `min_d` metres of an already
accepted point; an accepted candidate is stored with its coordinates
rounded to 7 decimals and its edge distance rounded to 1 decimal. -/
def genLoop (env : SamplerEnv) (cand : ℕ → ℚ × ℚ) (min_samples : ℕ)
    (min_d : ℚ) : ℕ → ℕ → List SamplingPoint → List SamplingPoint
  | 0, _, points => points
  | fuel + 1, attempts, points =>
    if points.length < min_samples then
      if env.inside (cand attempts).1 (cand attempts).2 = false then
        genLoop env cand min_samples min_d fuel (attempts + 1) points
      else if points.any (fun p =>
          decide (env.dist (cand attempts).1 (cand attempts).2 p.lat p.lng
            < min_d)) = true then
        genLoop env cand min_samples min_d fuel (attempts + 1) points
      else
        genLoop env cand min_samples min_d fuel (attempts + 1)
          (points ++ [⟨points.length + 1,
                      roundTo 7 (cand attempts).1,
                      roundTo 7 (cand attempts).2,
                      roundTo 1 (env.edgeDist (cand attempts).1
                        (cand attempts).2)⟩])
    else points

/-- `SpatialService.generate_sampling_points` (`spatial.py:68-187`):
run the loop with budget `min_samples * 100` and raise
`VerisSpatialError` when it ends short (`spatial.py:174-180`). -/
def generate_sampling_points (env : SamplerEnv) (cand : ℕ → ℚ × ℚ)
    (min_samples : ℕ) (min_distance_meters : ℚ) :
    Except SpatialError (List SamplingPoint) :=
  let points := genLoop env cand min_samples min_distance_meters
    (min_samples * 100) 0 []
  if points.length < min_samples then
    .error (.insufficientPoints points.length min_samples)
  else .ok points

/-- One unfolding of `genLoop` on positive fuel. -/
theorem genLoop_succ (env : SamplerEnv) (cand : ℕ → ℚ × ℚ)
    (ms : ℕ) (md : ℚ) (fuel attempts : ℕ) (points : List SamplingPoint) :
    genLoop env cand ms md (fuel + 1) attempts points =
      if points.length < ms then
        if env.inside (cand attempts).1 (cand attempts).2 = false then
          genLoop env cand ms md fuel (attempts + 1) points
        else if points.any (fun p =>
            decide (env.dist (cand attempts).1 (cand attempts).2 p.lat p.lng
              < md)) = true then
          genLoop env cand ms md fuel (attempts + 1) points
        else
          genLoop env cand ms md fuel (attempts + 1)
            (points ++ [⟨points.length + 1,
                        roundTo 7 (cand attempts).1,
                        roundTo 7 (cand attempts).2,
                        roundTo 1 (env.edgeDist (cand attempts).1
                          (cand attempts).2)⟩])
      else points := rfl

/-- Once the plan is full the loop only returns it. -/
theorem genLoop_of_full (env : SamplerEnv) (cand : ℕ → ℚ × ℚ)
    (ms : ℕ) (md : ℚ) (points : List SamplingPoint)
    (h : ¬ points.length < ms) :
    ∀ fuel attempts, genLoop env cand ms md fuel attempts points = points := by
  intro fuel
  cases fuel with
  | zero => intro _; rfl
  | succ f => intro a; rw [genLoop_succ, if_neg h]

/-- The loop invariant behind C5: sample numbers run `1..length` in order,
every stored point passed the shrunk-boundary test, and each point kept its
distance from every earlier one. -/
structure SamplerInv (env : SamplerEnv) (md : ℚ)
    (points : List SamplingPoint) : Prop where
  nums : points.map (fun p => p.sample_number) = List.range' 1 points.length
  inPoly : ∀ p ∈ points, env.inside p.lat p.lng = true
  spaced : points.Pairwise (fun p q => md ≤ env.dist q.lat q.lng p.lat p.lng)

theorem samplerInv_nil (env : SamplerEnv) (md : ℚ) :
    SamplerInv env md [] := by
  refine ⟨rfl, ?_, List.Pairwise.nil⟩
  intro p hp
  cases hp

/-- Accepting a candidate preserves the invariant. -/
theorem samplerInv_append (env : SamplerEnv) (md : ℚ)
    (points : List SamplingPoint) (la ln ed : ℚ)
    (hinv : SamplerInv env md points)
    (hin : env.inside la ln = true)
    (hd : ∀ p ∈ points, md ≤ env.dist la ln p.lat p.lng) :
    SamplerInv env md (points ++ [⟨points.length + 1, la, ln, ed⟩]) := by
  refine ⟨?_, ?_, ?_⟩
  · have hr : List.range' 1 (points.length + 1) =
        List.range' 1 points.length ++ [1 + 1 * points.length] :=
      List.range'_concat 1 points.length
    rw [one_mul, Nat.add_comm 1 points.length] at hr
    simp only [List.map_append, List.map_cons, List.map_nil, hinv.nums,
      List.length_append, List.length_cons, List.length_nil, Nat.zero_add]
    rw [← hr]
  · intro p hp
    rcases List.mem_append.mp hp with h | h
    · exact hinv.inPoly p h
    · rw [List.mem_singleton] at h
      subst h
      exact hin
  · rw [List.pairwise_append]
    refine ⟨hinv.spaced, List.pairwise_singleton _ _, ?_⟩
    intro a ha b hb
    rw [List.mem_singleton] at hb
    subst hb
    exact hd a ha

/-- The loop preserves the invariant and never overfills the plan. -/
theorem genLoop_sound (env : SamplerEnv) (cand : ℕ → ℚ × ℚ)
    (ms : ℕ) (md : ℚ)
    (hround : ∀ n, roundTo 7 (cand n).1 = (cand n).1 ∧
      roundTo 7 (cand n).2 = (cand n).2) :
    ∀ fuel attempts points, SamplerInv env md points → points.length ≤ ms →
      SamplerInv env md (genLoop env cand ms md fuel attempts points) ∧
      (genLoop env cand ms md fuel attempts points).length ≤ ms := by
  intro fuel
  induction fuel with
  | zero => intro a pts hinv hlen; exact ⟨hinv, hlen⟩
  | succ f ih =>
    intro a pts hinv hlen
    rw [genLoop_succ]
    by_cases hfull : pts.length < ms
    · rw [if_pos hfull]
      by_cases hin : env.inside (cand a).1 (cand a).2 = false
      · rw [if_pos hin]
        exact ih (a + 1) pts hinv hlen
      · rw [if_neg hin]
        by_cases hclose : pts.any (fun p =>
            decide (env.dist (cand a).1 (cand a).2 p.lat p.lng < md)) = true
        · rw [if_pos hclose]
          exact ih (a + 1) pts hinv hlen
        · rw [if_neg hclose]
          have hd : ∀ p ∈ pts, md ≤ env.dist (cand a).1 (cand a).2 p.lat p.lng := by
            intro p hp
            by_contra hlt
            exact hclose (List.any_eq_true.mpr
              ⟨p, hp, decide_eq_true (lt_of_not_le hlt)⟩)
          have hintrue : env.inside (cand a).1 (cand a).2 = true := by
            cases h : env.inside (cand a).1 (cand a).2 with
            | false => exact absurd h hin
            | true => rfl
          rcases hround a with ⟨h1, h2⟩
          rw [h1, h2]
          exact ih (a + 1) _
            (samplerInv_append env md pts _ _ _ hinv hintrue hd)
            (by simp only [List.length_append, List.length_cons,
              List.length_nil, Nat.zero_add]; omega)
    · rw [if_neg hfull]
      exact ⟨hinv, hlen⟩

/-- The loop reads no candidate index outside `[attempts, attempts + fuel)`. -/
theorem genLoop_congr (env : SamplerEnv) (ms : ℕ) (md : ℚ)
    (cand cand' : ℕ → ℚ × ℚ) :
    ∀ fuel attempts points,
      (∀ n, attempts ≤ n → n < attempts + fuel → cand n = cand' n) →
      genLoop env cand ms md fuel attempts points =
      genLoop env cand' ms md fuel attempts points := by
  intro fuel
  induction fuel with
  | zero => intro a pts _; rfl
  | succ f ih =>
    intro a pts h
    have hc : cand a = cand' a := h a le_rfl (by omega)
    have hrest : ∀ n, a + 1 ≤ n → n < (a + 1) + f → cand n = cand' n :=
      fun n h1 h2 => h n (by omega) (by omega)
    rw [genLoop_succ, genLoop_succ, hc]
    by_cases hfull : pts.length < ms
    · rw [if_pos hfull, if_pos hfull]
      by_cases hin : env.inside (cand' a).1 (cand' a).2 = false
      · rw [if_pos hin, if_pos hin]
        exact ih (a + 1) pts hrest
      · rw [if_neg hin, if_neg hin]
        by_cases hclose : pts.any (fun p =>
            decide (env.dist (cand' a).1 (cand' a).2 p.lat p.lng < md)) = true
        · rw [if_pos hclose, if_pos hclose]
          exact ih (a + 1) pts hrest
        · rw [if_neg hclose, if_neg hclose]
          exact ih (a + 1) _ hrest
    · rw [if_neg hfull, if_neg hfull]

/-- **C5** (confirmed).  Under two abstraction hypotheses — the haversine
helper is symmetric in its two endpoints (true of `_calculate_distance`),
and every candidate drawn already carries at most 7 decimals, so that the
7-decimal storage rounding at `spatial.py:165-166` is the identity on it —
the generator satisfies the claimed contract: a successful plan has exactly
`min_samples` points, numbered `1..min_samples` in order, each inside the
shrunk boundary, pairwise at distance `≥ min_distance_meters` (in both
orientations); the outcome depends only on the first
`min_samples * 100` candidates (the attempt budget, `spatial.py:100-103`);
and otherwise the generator raises `VerisSpatialError` carrying a count
strictly below `min_samples` instead of returning a short plan. -/
theorem C5_sampling_generator (env : SamplerEnv) (cand : ℕ → ℚ × ℚ)
    (min_samples : ℕ) (min_d : ℚ)
    (hsym : ∀ a b c d, env.dist a b c d = env.dist c d a b)
    (hround : ∀ n, roundTo 7 (cand n).1 = (cand n).1 ∧
      roundTo 7 (cand n).2 = (cand n).2) :
    (∀ pts, generate_sampling_points env cand min_samples min_d = .ok pts →
      pts.length = min_samples ∧
      pts.map (fun p => p.sample_number) = List.range' 1 min_samples ∧
      (∀ p ∈ pts, env.inside p.lat p.lng = true) ∧
      pts.Pairwise (fun p q => min_d ≤ env.dist q.lat q.lng p.lat p.lng ∧
        min_d ≤ env.dist p.lat p.lng q.lat q.lng)) ∧
    (∀ cand', (∀ n, n < min_samples * 100 → cand n = cand' n) →
      generate_sampling_points env cand min_samples min_d =
      generate_sampling_points env cand' min_samples min_d) ∧
    ((∃ pts, generate_sampling_points env cand min_samples min_d = .ok pts) ∨
      (∃ got, got < min_samples ∧
        generate_sampling_points env cand min_samples min_d =
          .error (.insufficientPoints got min_samples))) := by
  have hsound := genLoop_sound env cand min_samples min_d hround
    (min_samples * 100) 0 [] (samplerInv_nil env min_d) (Nat.zero_le _)
  refine ⟨?_, ?_, ?_⟩
  · intro pts hok
    simp only [generate_sampling_points] at hok
    by_cases hshort : (genLoop env cand min_samples min_d
        (min_samples * 100) 0 []).length < min_samples
    · rw [if_pos hshort] at hok
      cases hok
    · rw [if_neg hshort] at hok
      cases hok
      have hlen : (genLoop env cand min_samples min_d
          (min_samples * 100) 0 []).length = min_samples :=
        le_antisymm hsound.2 (le_of_not_lt hshort)
      refine ⟨hlen, ?_, hsound.1.inPoly, ?_⟩
      · rw [hsound.1.nums, hlen]
      · exact hsound.1.spaced.imp (fun h => ⟨h, (hsym _ _ _ _).symm ▸ h⟩)
  · intro cand' hagree
    simp only [generate_sampling_points]
    rw [genLoop_congr env min_samples min_d cand cand' (min_samples * 100) 0 []
      (fun n _ h2 => hagree n (by omega))]
  · simp only [generate_sampling_points]
    by_cases hshort : (genLoop env cand min_samples min_d
        (min_samples * 100) 0 []).length < min_samples
    · right
      exact ⟨_, hshort, by rw [if_pos hshort]⟩
    · left
      exact ⟨_, by rw [if_neg hshort]⟩

/-- Concrete C5 environment: every candidate is inside the shrunk polygon,
all pairwise distances are 1000 m and the edge distance is 7 m. -/
def c5env : SamplerEnv :=
  { inside := fun _ _ => true
    dist := fun _ _ _ _ => 1000
    edgeDist := fun _ _ => 7 }

/-- Concrete C5 candidate stream: always the origin. -/
def c5cand : ℕ → ℚ × ℚ := fun _ => (0, 0)

/-- The point the concrete C5 run stores on acceptance `n`. -/
def c5pt (n : ℕ) : SamplingPoint := ⟨n, 0, 0, 7⟩

/-- Witness for C5: asking for 2 points with a 20 m spacing in the concrete
environment succeeds with the plan `[point 1, point 2]`, and the theorem's
invariants hold of it. -/
theorem C5_sampling_generator_witness :
    generate_sampling_points c5env c5cand 2 20 = .ok [c5pt 1, c5pt 2] ∧
    [c5pt 1, c5pt 2].map (fun p => p.sample_number) = List.range' 1 2 ∧
    (∀ p ∈ [c5pt 1, c5pt 2], c5env.inside p.lat p.lng = true) := by
  have hr7 : roundTo 7 (0 : ℚ) = 0 := by norm_num [roundTo, roundHalfEven]
  have hr1 : roundTo 1 (7 : ℚ) = 7 := by norm_num [roundTo, roundHalfEven]
  have hok : generate_sampling_points c5env c5cand 2 20 = .ok [c5pt 1, c5pt 2] := by
    have h1 : genLoop c5env c5cand 2 20 (2 * 100) 0 [] =
        genLoop c5env c5cand 2 20 199 1 [c5pt 1] := by
      rw [show (2 * 100 : ℕ) = 199 + 1 from rfl, genLoop_succ]
      norm_num [c5env, c5cand, c5pt, hr7, hr1]
    have h2 : genLoop c5env c5cand 2 20 199 1 [c5pt 1] =
        genLoop c5env c5cand 2 20 198 2 [c5pt 1, c5pt 2] := by
      rw [show (199 : ℕ) = 198 + 1 from rfl, genLoop_succ]
      norm_num [c5env, c5cand, c5pt, hr7, hr1]
    have h3 : genLoop c5env c5cand 2 20 198 2 [c5pt 1, c5pt 2] =
        [c5pt 1, c5pt 2] :=
      genLoop_of_full c5env c5cand 2 20 [c5pt 1, c5pt 2] (by norm_num) 198 2
    simp only [generate_sampling_points, h1, h2, h3]
    norm_num
  have hmain := (C5_sampling_generator c5env c5cand 2 20
    (fun _ _ _ _ => rfl) (fun _ => ⟨hr7, hr7⟩)).1 _ hok
  exact ⟨hok, hmain.2.1, hmain.2.2.1⟩

end Verisca
